import Mathlib

/-!
# PyBlade template engine — shallow embedding and verification

This file embeds the core of the PyBlade templating engine
(`src/pyblade/engine/`) in Lean 4 and proves/refutes the frozen claims
about it.

The embedding covers, translated from the source:
* `sandbox.py` — `SafeEvaluator` (AST-based safe expression evaluator);
* `parser.py` — `Parser` (token stream → AST of directive nodes);
* `processor.py` — `TemplateProcessor` (AST rendering, directive renderers);
* `contexts.py` — `LoopContext`;
* `filters.py` / `registry.py` — the filter registry;
* `loader.py` — `load_template`.

Four engine modules that `processor.py` imports are absent from the
source tree (`lexer.py`, `evaluator.py`, `cache.py`, `exceptions.py`);
the definitions standing in for them are modelled from the specification
and are marked `Modelled from the spec:` in their doc comments.

Python machine-level conventions of the model:
* Python values are `PyVal`; Python exceptions are `PyErr` (break/continue
  loop-control signals are `PyErr.breakLoop` / `PyErr.continueLoop`, since
  in the source they are exception classes caught by `except Exception`
  handlers like every other exception).
* A Python `dict` used as a rendering context is an insertion-ordered
  association list `Ctx`; assignment updates in place or appends.
* Genuinely unmodellable host behaviours (float arithmetic, object
  addresses) surface as `PyErr.notModelled` or fixed placeholder strings;
  no claim exercises them.
-/

namespace PyBlade

/-- Model of the Python values the engine manipulates: `None`, booleans,
integers, strings, lists, tuples, dicts, `range` objects, the whitelisted
builtin function objects, bound-method objects (the result of `getattr`
on a method name), and `LoopContext` instances. -/
inductive PyVal where
  | none
  | bool (b : Bool)
  | int (n : Int)
  | str (s : String)
  | list (elems : List PyVal)
  | tuple (elems : List PyVal)
  | dict (pairs : List (PyVal × PyVal))
  | range (start stop step : Int)
  | builtin (name : String)
  | boundMethod (owner : PyVal) (method : String)
  | loopCtx (total : Int) (index : Int)
  deriving Repr, Inhabited

/-- Model of the Python exceptions raised by the engine.  `breakLoop` and
`continueLoop` model the `BreakLoop` / `ContinueLoop` control-signal
exception classes (Modelled from the spec: the `exceptions` module is
absent from the source tree; §4.4 describes them as "short-lived
exceptional control transfer" and the processor catches them with
dedicated `except BreakLoop` / `except ContinueLoop` clauses). -/
inductive PyErr where
  | typeError (msg : String)
  | attributeError (msg : String)
  | permissionError (msg : String)
  | undefinedVariable (name : String)
  | keyError (msg : String)
  | valueError (msg : String)
  | syntaxError (msg : String)
  | directiveParsingError (msg : String)
  | templateRenderError (msg : String)
  | templateNotFound (msg : String)
  | breakLoop
  | continueLoop
  | indexError (msg : String)
  | zeroDivisionError (msg : String)
  | fuelExhausted
  | notModelled (what : String)
  deriving Repr, DecidableEq, Inhabited

/-- `str(e)` of a modelled exception, as interpolated into the inline
error comments the renderer emits.  Python's `str` of an exception is its
message. -/
def PyErr.message : PyErr → String
  | .typeError m => m
  | .attributeError m => m
  | .permissionError m => m
  | .undefinedVariable n => "Undefined variable " ++ n
  | .keyError m => m
  | .valueError m => m
  | .syntaxError m => m
  | .directiveParsingError m => m
  | .templateRenderError m => m
  | .templateNotFound m => m
  | .breakLoop => ""
  | .continueLoop => ""
  | .indexError m => m
  | .zeroDivisionError m => m
  | .fuelExhausted => "recursion limit"
  | .notModelled m => m

/-- Rendering context: a Python `dict` from variable names to values,
modelled as an insertion-ordered association list. -/
abbrev Ctx := List (String × PyVal)

/-- `ctx.get(k)` — first binding wins (there is at most one per key). -/
def ctxGet (ctx : Ctx) (k : String) : Option PyVal :=
  match ctx with
  | [] => Option.none
  | (k2, v) :: rest => if k2 = k then some v else ctxGet rest k

/-- `ctx[k] = v` — replace an existing binding in place, else append
(Python dicts preserve insertion order). -/
def ctxSet (ctx : Ctx) (k : String) (v : PyVal) : Ctx :=
  match ctx with
  | [] => [(k, v)]
  | (k2, v2) :: rest =>
      if k2 = k then (k2, v) :: rest else (k2, v2) :: ctxSet rest k v

/-- `ctx.pop(k, None)` — remove the binding for `k` when present. -/
def ctxPop (ctx : Ctx) (k : String) : Ctx :=
  match ctx with
  | [] => []
  | (k2, v2) :: rest => if k2 = k then rest else (k2, v2) :: ctxPop rest k

/-- `bool(v)` — Python truthiness for the modelled values. -/
def truthy : PyVal → Bool
  | .none => false
  | .bool b => b
  | .int n => n != 0
  | .str s => s ≠ ""
  | .list l => !l.isEmpty
  | .tuple l => !l.isEmpty
  | .dict l => !l.isEmpty
  | .range start stop step =>
      if step > 0 then start < stop else if step < 0 then stop < start else false
  | .builtin _ => true
  | .boundMethod _ _ => true
  | .loopCtx _ _ => true

/-- Elements of `range(start, stop, step)` (constructed only with
`step ≠ 0`, which `range(...)` enforces with a `ValueError`). -/
def rangeList (start stop step : Int) : List Int :=
  let count : Nat :=
    if step > 0 then ((stop - start + step - 1).fdiv step).toNat
    else if step < 0 then ((start - stop + (-step) - 1).fdiv (-step)).toNat
    else 0
  (List.range count).map (fun i => start + step * (i : Int))

mutual

/-- Python `==` on the modelled values (`True == 1`, `[..] == [..]`
element-wise, dicts by key/value multiset; `list == tuple` is `False`). -/
def pyEq : PyVal → PyVal → Bool
  | .none, .none => true
  | .bool a, .bool b => a == b
  | .bool a, .int n => (if a then (1 : Int) else 0) == n
  | .int n, .bool a => n == (if a then (1 : Int) else 0)
  | .int a, .int b => a == b
  | .str a, .str b => a == b
  | .list a, .list b => pyEqList a b
  | .tuple a, .tuple b => pyEqList a b
  | .dict a, .dict b => a.length == b.length && pyDictLe a b
  | .range a b c, .range d e f => rangeList a b c == rangeList d e f
  | _, _ => false

/-- Element-wise list equality via `pyEq`. -/
def pyEqList : List PyVal → List PyVal → Bool
  | [], [] => true
  | a :: as2, b :: bs => pyEq a b && pyEqList as2 bs
  | _, _ => false

/-- Every pair of the first dict occurs (up to `pyEq`) in the second. -/
def pyDictLe : List (PyVal × PyVal) → List (PyVal × PyVal) → Bool
  | [], _ => true
  | (k, v) :: rest, other => pyMemEq k v other && pyDictLe rest other

/-- `(k, v)` occurs (up to `pyEq`) in the pair list. -/
def pyMemEq : PyVal → PyVal → List (PyVal × PyVal) → Bool
  | _, _, [] => false
  | k, v, (k2, v2) :: rest => (pyEq k k2 && pyEq v v2) || pyMemEq k v rest

end

/-- `str.upper()` (ASCII; Unicode case mapping is out of the model's
scope and no claim exercises it). -/
def pyUpper (s : String) : String := ⟨s.data.map Char.toUpper⟩

/-- `str.lower()` (ASCII). -/
def pyLower (s : String) : String := ⟨s.data.map Char.toLower⟩

/-- `s.startswith(p)`. -/
def pyStartsWith (s p : String) : Bool := p.data.isPrefixOf s.data

/-- `s.endswith(p)`. -/
def pyEndsWith (s p : String) : Bool := p.data.isSuffixOf s.data

/-- Python whitespace for `str.strip` and friends (ASCII subset). -/
def isPyWs (c : Char) : Bool := c = ' ' || c = '\t' || c = '\n' || c = '\r'

/-- `str.lstrip()`. -/
def pyLstrip (s : String) : String := ⟨s.data.dropWhile isPyWs⟩

/-- `str.rstrip()`. -/
def pyRstrip (s : String) : String := ⟨(s.data.reverse.dropWhile isPyWs).reverse⟩

/-- `str.strip()`. -/
def pyStrip (s : String) : String := pyRstrip (pyLstrip s)

/-- `str.capitalize()` — first character uppercased, rest lowercased. -/
def pyCapitalize (s : String) : String :=
  match s.data with
  | [] => ""
  | c :: rest => ⟨c.toUpper :: (rest.map Char.toLower)⟩

/-- `str.swapcase()` (ASCII). -/
def pySwapcase (s : String) : String :=
  ⟨s.data.map (fun c => if c.isUpper then c.toLower else c.toUpper)⟩

/-- `str.title()` — each alphabetic run starts uppercase, rest lowered. -/
def pyTitle (s : String) : String :=
  let rec go : List Char → Bool → List Char
    | [], _ => []
    | c :: rest, startWord =>
        if c.isAlpha then
          (if startWord then c.toUpper else c.toLower) :: go rest false
        else c :: go rest true
  ⟨go s.data true⟩

/-- Left-to-right non-overlapping replacement over character lists; a
nonempty pattern consumes at least one character per hit, so
`length + 1` fuel is ample. -/
def replaceAux : Nat → List Char → List Char → List Char → List Char
  | 0, s, _, _ => s
  | fuel + 1, s, old, new =>
    match s with
    | [] => []
    | c :: rest =>
        if old.isPrefixOf (c :: rest) then
          new ++ replaceAux fuel ((c :: rest).drop old.length) old new
        else c :: replaceAux fuel rest old new

/-- `str.replace(old, new)` for nonempty `old` (the only form the engine
whitelist can reach with two arguments). -/
def pyReplace (s old new : String) : String :=
  if old = "" then s
  else ⟨replaceAux (s.data.length + 1) s.data old.data new.data⟩

/-- The runtime type name Python reports in error messages. -/
def typeName : PyVal → String
  | .none => "NoneType"
  | .bool _ => "bool"
  | .int _ => "int"
  | .str _ => "str"
  | .list _ => "list"
  | .tuple _ => "tuple"
  | .dict _ => "dict"
  | .range _ _ _ => "range"
  | .builtin _ => "builtin_function_or_method"
  | .boundMethod _ _ => "builtin_function_or_method"
  | .loopCtx _ _ => "LoopContext"

/-- Escape for Python `repr` of a string: backslash and single quote
(ASCII-simplified; Python's quote-choice refinement is not modelled and
no claim renders a container holding a quote character). -/
def reprEscape (s : String) : String :=
  s.data.foldl (fun acc c =>
    if c = '\\' then acc ++ "\\\\"
    else if c = '\'' then acc ++ "\\'"
    else acc.push c) ""

mutual

/-- Python `repr(v)` — quotes strings; on every other value it agrees
with `str(v)`, whose cases are spelled out here so the mutual recursion
is structural (nested through `List`/`Prod`). -/
def pyRepr : PyVal → String
  | .str s => "'" ++ reprEscape s ++ "'"
  | .none => "None"
  | .bool b => if b then "True" else "False"
  | .int n => toString n
  | .list l => "[" ++ String.intercalate ", " (pyReprList l) ++ "]"
  | .tuple l =>
      match pyReprList l with
      | [r] => "(" ++ r ++ ",)"
      | rs => "(" ++ String.intercalate ", " rs ++ ")"
  | .dict ps => "\x7b" ++ String.intercalate ", " (pyReprPairs ps) ++ "\x7d"
  | .range a b c => if c = 1 then "range(" ++ toString a ++ ", " ++ toString b ++ ")"
      else "range(" ++ toString a ++ ", " ++ toString b ++ ", " ++ toString c ++ ")"
  | .builtin name => "<built-in function " ++ name ++ ">"
  | .boundMethod _ m => "<built-in method " ++ m ++ ">"
  | .loopCtx _ _ => "<LoopContext object>"

/-- `repr` of each element. -/
def pyReprList : List PyVal → List String
  | [] => []
  | v :: rest => pyRepr v :: pyReprList rest

/-- `repr(k): repr(v)` of each pair. -/
def pyReprPairs : List (PyVal × PyVal) → List String
  | [] => []
  | (k, v) :: rest => (pyRepr k ++ ": " ++ pyRepr v) :: pyReprPairs rest

end

/-- Python `str(v)`.  Identical to `repr` except on strings, which it
returns verbatim.  Function/method objects print with a memory address
in Python; the model uses a fixed placeholder (no claim converts them
to strings). -/
def pyStr : PyVal → String
  | .str s => s
  | v => pyRepr v

/-- `html.escape(s)` with `quote=True` (the default), as used by
`TemplateProcessor.render_variable`. -/
def htmlEscape (s : String) : String :=
  s.data.foldl (fun acc c =>
    if c = '&' then acc ++ "&amp;"
    else if c = '<' then acc ++ "&lt;"
    else if c = '>' then acc ++ "&gt;"
    else if c = '"' then acc ++ "&quot;"
    else if c = '\'' then acc ++ "&#x27;"
    else acc.push c) ""

/-- Numeric view: Python `bool` is a subclass of `int`. -/
def asNum : PyVal → Option Int
  | .bool b => some (if b then 1 else 0)
  | .int n => some n
  | _ => Option.none

/-- `operator.add` on the modelled values. -/
def pyAdd : PyVal → PyVal → Except PyErr PyVal
  | a, b =>
    match asNum a, asNum b with
    | some x, some y => .ok (.int (x + y))
    | _, _ =>
      match a, b with
      | .str x, .str y => .ok (.str (x ++ y))
      | .list x, .list y => .ok (.list (x ++ y))
      | .tuple x, .tuple y => .ok (.tuple (x ++ y))
      | _, _ => .error (.typeError ("unsupported operand type(s) for +: '" ++
          typeName a ++ "' and '" ++ typeName b ++ "'"))

/-- `operator.sub`. -/
def pySub (a b : PyVal) : Except PyErr PyVal :=
  match asNum a, asNum b with
  | some x, some y => .ok (.int (x - y))
  | _, _ => .error (.typeError ("unsupported operand type(s) for -: '" ++
      typeName a ++ "' and '" ++ typeName b ++ "'"))

/-- `seq * n` repetition. -/
def pyRepeat (l : List PyVal) (n : Int) : List PyVal :=
  (List.range n.toNat).foldl (fun acc _ => acc ++ l) []

/-- `operator.mul`. -/
def pyMul (a b : PyVal) : Except PyErr PyVal :=
  match asNum a, asNum b with
  | some x, some y => .ok (.int (x * y))
  | _, _ =>
    match a, b with
    | .str s, .int n => .ok (.str (String.join ((List.range n.toNat).map (fun _ => s))))
    | .int n, .str s => .ok (.str (String.join ((List.range n.toNat).map (fun _ => s))))
    | .list l, .int n => .ok (.list (pyRepeat l n))
    | .int n, .list l => .ok (.list (pyRepeat l n))
    | _, _ => .error (.typeError ("unsupported operand type(s) for *: '" ++
        typeName a ++ "' and '" ++ typeName b ++ "'"))

/-- `operator.truediv` — Python's `/` always yields a float; floats are
outside the model (no claim divides). -/
def pyDiv (a b : PyVal) : Except PyErr PyVal :=
  match asNum a, asNum b with
  | some _, some y =>
      if y = 0 then .error (.zeroDivisionError "division by zero")
      else .error (.notModelled "float division")
  | _, _ => .error (.typeError ("unsupported operand type(s) for /: '" ++
      typeName a ++ "' and '" ++ typeName b ++ "'"))

/-- `operator.floordiv` — Python floors toward negative infinity. -/
def pyFloorDiv (a b : PyVal) : Except PyErr PyVal :=
  match asNum a, asNum b with
  | some x, some y =>
      if y = 0 then .error (.zeroDivisionError "integer division or modulo by zero")
      else .ok (.int (x.fdiv y))
  | _, _ => .error (.typeError ("unsupported operand type(s) for //: '" ++
      typeName a ++ "' and '" ++ typeName b ++ "'"))

/-- `operator.mod` — Python's `%` has the divisor's sign (floored). -/
def pyMod (a b : PyVal) : Except PyErr PyVal :=
  match asNum a, asNum b with
  | some x, some y =>
      if y = 0 then .error (.zeroDivisionError "integer division or modulo by zero")
      else .ok (.int (x.fmod y))
  | _, _ => .error (.typeError ("unsupported operand type(s) for %: '" ++
      typeName a ++ "' and '" ++ typeName b ++ "'"))

/-- `operator.pow` — negative exponents yield floats (not modelled). -/
def pyPow (a b : PyVal) : Except PyErr PyVal :=
  match asNum a, asNum b with
  | some x, some y =>
      if y < 0 then .error (.notModelled "float power")
      else .ok (.int (x ^ y.toNat))
  | _, _ => .error (.typeError ("unsupported operand type(s) for ** or pow(): '" ++
      typeName a ++ "' and '" ++ typeName b ++ "'"))

mutual

/-- Python ordering comparison (for `<`, `<=`, `>`, `>=`): numbers
(bool coerced), strings by code point, lists/tuples lexicographically;
anything else is a `TypeError`. -/
def pyCmp : PyVal → PyVal → Except PyErr Ordering
  | a, b =>
    match asNum a, asNum b with
    | some x, some y => .ok (compare x y)
    | _, _ =>
      match a, b with
      | .str x, .str y => .ok (compare x y)
      | .list x, .list y => pyCmpList x y
      | .tuple x, .tuple y => pyCmpList x y
      | _, _ => .error (.typeError ("'<' not supported between instances of '" ++
          typeName a ++ "' and '" ++ typeName b ++ "'"))

/-- Lexicographic list comparison via `pyCmp`. -/
def pyCmpList : List PyVal → List PyVal → Except PyErr Ordering
  | [], [] => .ok .eq
  | [], _ :: _ => .ok .lt
  | _ :: _, [] => .ok .gt
  | a :: as2, b :: bs => do
      match ← pyCmp a b with
      | .eq => pyCmpList as2 bs
      | o => pure o

end

/-- `len(v)`. -/
def pyLen : PyVal → Except PyErr Int
  | .str s => .ok s.length
  | .list l => .ok l.length
  | .tuple l => .ok l.length
  | .dict ps => .ok ps.length
  | .range a b c => .ok (rangeList a b c).length
  | v => .error (.typeError ("object of type '" ++ typeName v ++ "' has no len()"))

/-- `hasattr(v, '__iter__')`. -/
def hasIter : PyVal → Bool
  | .str _ | .list _ | .tuple _ | .dict _ | .range _ _ _ => true
  | _ => false

/-- `list(v)` — materialize an iterable (a dict iterates over its keys,
a string over its one-character substrings). -/
def pyIterList : PyVal → Option (List PyVal)
  | .list l => some l
  | .tuple l => some l
  | .str s => some (s.data.map (fun c => .str (String.singleton c)))
  | .dict ps => some (ps.map Prod.fst)
  | .range a b c => some ((rangeList a b c).map .int)
  | _ => Option.none

/-- Look a key up in a dict's pair list with Python `==`. -/
def dictLookup (key : PyVal) : List (PyVal × PyVal) → Option PyVal
  | [] => Option.none
  | (k, v) :: rest => if pyEq key k then some v else dictLookup key rest

/-- `target[key]` — Python subscripting on the modelled values. -/
def pySubscript (target key : PyVal) : Except PyErr PyVal :=
  match target with
  | .list l =>
      match asNum key with
      | some i =>
          let j : Int := if i < 0 then i + l.length else i
          if h : 0 ≤ j ∧ j.toNat < l.length then .ok (l.get ⟨j.toNat, h.2⟩)
          else .error (.indexError "list index out of range")
      | _ => .error (.typeError "list indices must be integers or slices")
  | .tuple l =>
      match asNum key with
      | some i =>
          let j : Int := if i < 0 then i + l.length else i
          if h : 0 ≤ j ∧ j.toNat < l.length then .ok (l.get ⟨j.toNat, h.2⟩)
          else .error (.indexError "tuple index out of range")
      | _ => .error (.typeError "tuple indices must be integers or slices")
  | .str s =>
      match asNum key with
      | some i =>
          let l := s.data
          let j : Int := if i < 0 then i + l.length else i
          if h : 0 ≤ j ∧ j.toNat < l.length then
            .ok (.str (String.singleton (l.get ⟨j.toNat, h.2⟩)))
          else .error (.indexError "string index out of range")
      | _ => .error (.typeError "string indices must be integers")
  | .dict ps =>
      match dictLookup key ps with
      | some v => .ok v
      | Option.none => .error (.keyError (pyRepr key))
  | .range a b c =>
      match asNum key with
      | some i =>
          let l := rangeList a b c
          let j : Int := if i < 0 then i + l.length else i
          if h : 0 ≤ j ∧ j.toNat < l.length then .ok (.int (l.get ⟨j.toNat, h.2⟩))
          else .error (.indexError "range object index out of range")
      | _ => .error (.typeError "range indices must be integers or slices")
  | v => .error (.typeError ("'" ++ typeName v ++ "' object is not subscriptable"))

/-! ## `getattr`, bound methods, the per-type whitelist, filters -/

/-- The fragment of Python's `str` attribute set carried by the model.
Every name listed is a genuine method of `str`; names outside the list
(and all double-underscore attributes) behave as `AttributeError`, which
is faithful for every name any claim exercises. -/
def strMethodNames : List String :=
  ["upper", "lower", "strip", "lstrip", "rstrip", "title", "capitalize",
   "casefold", "swapcase", "startswith", "endswith", "replace",
   "split", "rsplit", "join", "find", "rfind", "count", "index",
   "format", "zfill", "center", "encode", "isdigit", "isalpha", "isalnum"]

/-- Genuine `list` methods carried by the model. -/
def listMethodNames : List String :=
  ["count", "index", "append", "extend", "insert", "remove", "pop",
   "clear", "sort", "reverse", "copy"]

/-- Genuine `tuple` methods carried by the model. -/
def tupleMethodNames : List String := ["count", "index"]

/-- Genuine `dict` methods carried by the model. -/
def dictMethodNames : List String :=
  ["get", "keys", "values", "items", "pop", "update", "clear", "copy",
   "setdefault"]

/-- `getattr(owner, name)`: `some v` on success, `none` for
`AttributeError`.  Methods come back as bound-method objects; the
non-callable numeric attributes of `int`/`bool` (`numerator`, `real`, …)
and the `LoopContext` properties come back as plain values, exactly as
in Python. -/
def pyGetattr (owner : PyVal) (name : String) : Option PyVal :=
  match owner with
  | .str _ => if name ∈ strMethodNames then some (.boundMethod owner name) else Option.none
  | .list _ => if name ∈ listMethodNames then some (.boundMethod owner name) else Option.none
  | .tuple _ => if name ∈ tupleMethodNames then some (.boundMethod owner name) else Option.none
  | .dict _ => if name ∈ dictMethodNames then some (.boundMethod owner name) else Option.none
  | .int n =>
      if name = "numerator" then some (.int n)
      else if name = "denominator" then some (.int 1)
      else if name = "real" then some (.int n)
      else if name = "imag" then some (.int 0)
      else if name ∈ ["bit_length", "conjugate", "to_bytes"] then
        some (.boundMethod owner name)
      else Option.none
  | .bool b =>
      let n : Int := if b then 1 else 0
      if name = "numerator" then some (.int n)
      else if name = "denominator" then some (.int 1)
      else if name = "real" then some (.int n)
      else if name = "imag" then some (.int 0)
      else if name ∈ ["bit_length", "conjugate", "to_bytes"] then
        some (.boundMethod owner name)
      else Option.none
  | .range a b c =>
      if name = "start" then some (.int a)
      else if name = "stop" then some (.int b)
      else if name = "step" then some (.int c)
      else if name ∈ ["count", "index"] then some (.boundMethod owner name)
      else Option.none
  | .loopCtx total idx =>
      if name = "index" then some (.int idx)
      else if name = "iteration" then some (.int (idx + 1))
      else if name = "remaining" then some (.int (total - (idx + 1)))
      else if name = "count" then some (.int total)
      else if name = "first" then some (.bool (idx = 0))
      else if name = "last" then some (.bool (idx + 1 = total))
      else if name = "even" then some (.bool ((idx + 1) % 2 = 0))
      else if name = "odd" then some (.bool ((idx + 1) % 2 ≠ 0))
      else Option.none
  | _ => Option.none

/-- `callable(v) and hasattr(v, '__self__')` — a bound method object. -/
def isBoundMethod : PyVal → Bool
  | .boundMethod _ _ => true
  | _ => false

/-- `callable(v)`. -/
def isCallable : PyVal → Bool
  | .boundMethod _ _ => true
  | .builtin _ => true
  | _ => false

/-- `SafeEvaluator._safe_methods` applied through
`SafeEvaluator._is_safe_method`: the first of `str`, `list`, `tuple`,
`dict` that `owner` is an instance of decides; other types are never
safe. -/
def isSafeMethod (owner : PyVal) (name : String) : Bool :=
  match owner with
  | .str _ => name ∈ ["upper", "lower", "strip", "lstrip", "rstrip", "title",
      "capitalize", "casefold", "swapcase", "startswith", "endswith", "replace"]
  | .list _ => name ∈ ["count", "index"]
  | .tuple _ => name ∈ ["count", "index"]
  | .dict _ => name ∈ ["get", "keys", "values", "items"]
  | _ => false

/-- `elems.count(x)` with Python `==`. -/
def pyCount (elems : List PyVal) (x : PyVal) : Int :=
  (elems.filter (fun e => pyEq x e)).length

/-- `elems.index(x)` with Python `==`. -/
def pyIndexOf (elems : List PyVal) (x : PyVal) : Option Int :=
  match elems with
  | [] => Option.none
  | e :: rest => if pyEq x e then some 0 else (pyIndexOf rest x).map (· + 1)

/-- Invoke `owner.name(args)` for the methods the engine can actually
invoke (only whitelisted methods are ever called — a non-whitelisted
method raises `PermissionError` in the call path before invocation and
is returned un-invoked in the attribute path).  Arities follow Python;
optional-parameter forms no claim exercises answer `notModelled`. -/
def pyCallMethod (owner : PyVal) (name : String) (args : List PyVal) :
    Except PyErr PyVal :=
  match owner, name, args with
  | .str s, "upper", [] => .ok (.str (pyUpper s))
  | .str s, "lower", [] => .ok (.str (pyLower s))
  | .str s, "strip", [] => .ok (.str (pyStrip s))
  | .str s, "lstrip", [] => .ok (.str (pyLstrip s))
  | .str s, "rstrip", [] => .ok (.str (pyRstrip s))
  | .str s, "title", [] => .ok (.str (pyTitle s))
  | .str s, "capitalize", [] => .ok (.str (pyCapitalize s))
  | .str s, "casefold", [] => .ok (.str (pyLower s))
  | .str s, "swapcase", [] => .ok (.str (pySwapcase s))
  | .str _, "upper", _ => .error (.typeError "str.upper() takes no arguments (1 given)")
  | .str _, "lower", _ => .error (.typeError "str.lower() takes no arguments (1 given)")
  | .str _, "strip", _ => .error (.notModelled "str.strip with an argument")
  | .str _, "lstrip", _ => .error (.notModelled "str.lstrip with an argument")
  | .str _, "rstrip", _ => .error (.notModelled "str.rstrip with an argument")
  | .str _, "title", _ => .error (.typeError "str.title() takes no arguments (1 given)")
  | .str _, "capitalize", _ => .error (.typeError "str.capitalize() takes no arguments (1 given)")
  | .str _, "casefold", _ => .error (.typeError "str.casefold() takes no arguments (1 given)")
  | .str _, "swapcase", _ => .error (.typeError "str.swapcase() takes no arguments (1 given)")
  | .str s, "startswith", [.str p] => .ok (.bool (pyStartsWith s p))
  | .str _, "startswith", [] =>
      .error (.typeError "startswith expected at least 1 argument, got 0")
  | .str _, "startswith", _ => .error (.notModelled "startswith variant")
  | .str s, "endswith", [.str p] => .ok (.bool (pyEndsWith s p))
  | .str _, "endswith", [] =>
      .error (.typeError "endswith expected at least 1 argument, got 0")
  | .str _, "endswith", _ => .error (.notModelled "endswith variant")
  | .str s, "replace", [.str old, .str new] => .ok (.str (pyReplace s old new))
  | .str _, "replace", [] =>
      .error (.typeError "replace expected at least 2 arguments, got 0")
  | .str _, "replace", [_] =>
      .error (.typeError "replace expected at least 2 arguments, got 1")
  | .str _, "replace", _ => .error (.notModelled "replace variant")
  | .list l, "count", [x] => .ok (.int (pyCount l x))
  | .list _, "count", [] => .error (.typeError "count() takes exactly one argument (0 given)")
  | .list _, "count", _ => .error (.typeError "count() takes exactly one argument")
  | .list l, "index", [x] =>
      match pyIndexOf l x with
      | some i => .ok (.int i)
      | Option.none => .error (.valueError (pyRepr x ++ " is not in list"))
  | .list _, "index", [] => .error (.typeError "index expected at least 1 argument, got 0")
  | .list _, "index", _ => .error (.notModelled "list.index variant")
  | .tuple l, "count", [x] => .ok (.int (pyCount l x))
  | .tuple _, "count", [] => .error (.typeError "count() takes exactly one argument (0 given)")
  | .tuple _, "count", _ => .error (.typeError "count() takes exactly one argument")
  | .tuple l, "index", [x] =>
      match pyIndexOf l x with
      | some i => .ok (.int i)
      | Option.none => .error (.valueError "tuple.index(x): x not in tuple")
  | .tuple _, "index", [] => .error (.typeError "index expected at least 1 argument, got 0")
  | .tuple _, "index", _ => .error (.notModelled "tuple.index variant")
  | .dict ps, "get", [k] => .ok ((dictLookup k ps).getD .none)
  | .dict ps, "get", [k, d] => .ok ((dictLookup k ps).getD d)
  | .dict _, "get", [] => .error (.typeError "get expected at least 1 argument, got 0")
  | .dict _, "get", _ => .error (.typeError "get expected at most 2 arguments")
  | .dict ps, "keys", [] => .ok (.list (ps.map Prod.fst))
  | .dict _, "keys", _ => .error (.typeError "keys() takes no arguments (1 given)")
  | .dict ps, "values", [] => .ok (.list (ps.map Prod.snd))
  | .dict _, "values", _ => .error (.typeError "values() takes no arguments (1 given)")
  | .dict ps, "items", [] => .ok (.list (ps.map (fun p => .tuple [p.1, p.2])))
  | .dict _, "items", _ => .error (.typeError "items() takes no arguments (1 given)")
  | _, _, _ => .error (.notModelled ("method " ++ name))

/-- The names registered in the filter registry by `filters.py`
(`FilterRegistry.register` under each function's own name), consulted by
`self._filters.has(attr_name)`. -/
def filterNames : List String :=
  ["upper", "lower", "title", "capitalize", "strip", "truncate", "excerpt",
   "limit", "slugify", "add", "subtract", "multiply", "divide", "currency",
   "percentage", "length", "count", "first", "last", "join", "format",
   "humanize"]

/-- Group a (reversed) digit list into comma-separated triples. -/
def chunkThousands (l : List Char) : List Char :=
  if l.length ≤ 3 then l
  else l.take 3 ++ ',' :: chunkThousands (l.drop 3)
termination_by l.length
decreasing_by simp_wf; omega

/-- Insert thousands separators, Python `f"{n:,}"` style. -/
def groupThousands (n : Int) : String :=
  let ds := (toString n.natAbs).data.reverse
  (if n < 0 then "-" else "") ++ String.mk ((chunkThousands ds).reverse)

/-- Collapse every run of whitespace/hyphens to a single `-`
(the `re.sub(r"[-\s]+", "-", ...)` step of `slugify`). -/
def collapseDashRuns : List Char → List Char
  | [] => []
  | c :: rest =>
      if isPyWs c || c = '-' then
        '-' :: collapseDashRuns (rest.dropWhile (fun d => isPyWs d || d = '-'))
      else c :: collapseDashRuns rest
termination_by l => l.length
decreasing_by
  all_goals simp_wf
  all_goals
    (have h2 := (List.dropWhile_sublist (l := rest)
       (p := fun d => isPyWs d || d = '-')).length_le
     omega)

/-- `slugify` from `filters.py`: lower-case, drop characters outside
`[\w\s-]`, collapse `[-\s]+` runs to `-`, strip leading/trailing `-`
(ASCII reading of `\w`/`\s`). -/
def slugifyStr (s : String) : String :=
  let lowered := (pyLower s).data
  let kept := lowered.filter (fun c =>
    c.isAlphanum || c = '_' || isPyWs c || c = '-')
  let collapsed := collapseDashRuns kept
  String.mk (((collapsed.dropWhile (· = '-')).reverse.dropWhile (· = '-')).reverse)

/-- `s.rsplit(" ", 1)[0]` as used by the `excerpt` filter: the prefix
before the last space, or all of `s` when it has no space. -/
def rsplitHead (s : String) : String :=
  match s.data.reverse.findIdx? (fun c => c = ' ') with
  | Option.none => s
  | some i => String.mk (s.data.take (s.data.length - i - 1))

/-- Apply the registered filter `name` to `owner` and positional
`args` — `filter_func(owner, *args)` from `filters.py`.  Date-only
filters (`format`, `humanize`) return non-datetime input unchanged,
exactly as in the source; float-producing formats on non-numeric input
answer the Python error; keyword arguments are not modelled (no claim
passes any). -/
def applyFilter (name : String) (owner : PyVal) (args : List PyVal) :
    Except PyErr PyVal :=
  match name, args with
  | "upper", [] => .ok (.str (pyUpper (pyStr owner)))
  | "lower", [] => .ok (.str (pyLower (pyStr owner)))
  | "title", [] => .ok (.str (pyTitle (pyStr owner)))
  | "capitalize", [] => .ok (.str (pyCapitalize (pyStr owner)))
  | "strip", [] => .ok (.str (pyStrip (pyStr owner)))
  | "truncate", [n] =>
      (match asNum n with
       | some k => .ok (.str (String.mk ((pyStr owner).data.take k.toNat)))
       | _ => .error (.notModelled "truncate length conversion"))
  | "truncate", [] =>
      .error (.typeError "truncate() missing 1 required positional argument: 'length'")
  | "limit", [n] =>
      (match asNum n with
       | some k => .ok (.str (String.mk ((pyStr owner).data.take k.toNat)))
       | _ => .error (.notModelled "limit length conversion"))
  | "limit", [] =>
      .error (.typeError "limit() missing 1 required positional argument: 'length'")
  | "excerpt", [n] =>
      (match asNum n with
       | some k =>
          let s := pyStr owner
          if s.length ≤ k.toNat then .ok (.str s)
          else .ok (.str (rsplitHead (String.mk (s.data.take k.toNat)) ++ "..."))
       | _ => .error (.notModelled "excerpt length conversion"))
  | "excerpt", [] =>
      .error (.typeError "excerpt() missing 1 required positional argument: 'length'")
  | "slugify", [] => .ok (.str (slugifyStr (pyStr owner)))
  | "add", [x] => pyAdd owner x
  | "add", [] => .error (.typeError "add() missing 1 required positional argument: 'amount'")
  | "subtract", [x] => pySub owner x
  | "subtract", [] =>
      .error (.typeError "subtract() missing 1 required positional argument: 'amount'")
  | "multiply", [x] => pyMul owner x
  | "multiply", [] =>
      .error (.typeError "multiply() missing 1 required positional argument: 'amount'")
  | "divide", [x] => pyDiv owner x
  | "divide", [] =>
      .error (.typeError "divide() missing 1 required positional argument: 'amount'")
  | "currency", [] =>
      (match asNum owner with
       | some n => .ok (.str ("$ " ++ groupThousands n ++ ".00"))
       | _ => .error (.valueError "Cannot specify ',' with 's'."))
  | "currency", [.str sym] =>
      (match asNum owner with
       | some n => .ok (.str (sym ++ " " ++ groupThousands n ++ ".00"))
       | _ => .error (.valueError "Cannot specify ',' with 's'."))
  | "currency", _ => .error (.notModelled "currency variant")
  | "percentage", [] =>
      (match asNum owner with
       | some n => .ok (.str (toString n ++ ".0 %"))
       | _ => .error (.valueError "Unknown format code 'f' for object of type 'str'"))
  | "percentage", _ => .error (.notModelled "percentage variant")
  | "length", [] => (pyLen owner).map .int
  | "length", _ => .error (.typeError "length() takes 1 positional argument")
  | "count", [] => (pyLen owner).map .int
  | "count", _ => .error (.typeError "count() takes 1 positional argument")
  | "first", [] =>
      if truthy owner then pySubscript owner (.int 0) else .ok .none
  | "first", _ => .error (.typeError "first() takes 1 positional argument")
  | "last", [] =>
      if truthy owner then pySubscript owner (.int (-1)) else .ok .none
  | "last", _ => .error (.typeError "last() takes 1 positional argument")
  | "join", [] =>
      (match pyIterList owner with
       | some l => .ok (.str (String.intercalate "," (l.map pyStr)))
       | _ => .error (.typeError ("'" ++ typeName owner ++ "' object is not iterable")))
  | "join", [.str sep] =>
      (match pyIterList owner with
       | some l => .ok (.str (String.intercalate sep (l.map pyStr)))
       | _ => .error (.typeError ("'" ++ typeName owner ++ "' object is not iterable")))
  | "join", _ => .error (.notModelled "join variant")
  | "format", _ => .ok owner
  | "humanize", [] => .ok owner
  | "humanize", _ => .error (.typeError "humanize() takes 1 positional argument")
  | _, _ => .error (.notModelled ("filter " ++ name))

/-! ## Whitelisted builtins (`SafeEvaluator._builtins`) -/

/-- The names in `SafeEvaluator._builtins`. -/
def sandboxBuiltinNames : List String :=
  ["len", "range", "type", "sum", "min", "max", "enumerate", "bool", "abs"]

/-- Smallest of a nonempty list under Python ordering. -/
def pyMinList (v : PyVal) (rest : List PyVal) : Except PyErr PyVal :=
  match rest with
  | [] => .ok v
  | b :: more => do
      match ← pyCmp b v with
      | .lt => pyMinList b more
      | _ => pyMinList v more

/-- Largest of a nonempty list under Python ordering. -/
def pyMaxList (v : PyVal) (rest : List PyVal) : Except PyErr PyVal :=
  match rest with
  | [] => .ok v
  | b :: more => do
      match ← pyCmp b v with
      | .gt => pyMaxList b more
      | _ => pyMaxList v more

/-- `sum(iterable, start)` folding with Python `+`. -/
def pySumList (acc : PyVal) (l : List PyVal) : Except PyErr PyVal :=
  match l with
  | [] => .ok acc
  | x :: rest => do pySumList (← pyAdd acc x) rest

/-- Apply one of the whitelisted builtin functions to positional
arguments.  `type` returns a class object, which is outside the value
model.  `enumerate` is modelled already materialized (the engine always
either iterates it or renders it, and no claim renders one). -/
def applyBuiltin (name : String) (args : List PyVal) : Except PyErr PyVal :=
  match name, args with
  | "len", [v] => (pyLen v).map .int
  | "len", _ => .error (.typeError "len() takes exactly one argument")
  | "range", [] => .error (.typeError "range expected at least 1 argument, got 0")
  | "range", [v] =>
      (match asNum v with
       | some n => .ok (.range 0 n 1)
       | _ => .error (.typeError ("'" ++ typeName v ++ "' object cannot be interpreted as an integer")))
  | "range", [a, b] =>
      (match asNum a, asNum b with
       | some x, some y => .ok (.range x y 1)
       | _, _ => .error (.typeError "range arguments must be integers"))
  | "range", [a, b, c] =>
      (match asNum a, asNum b, asNum c with
       | some x, some y, some z =>
          if z = 0 then .error (.valueError "range() arg 3 must not be zero")
          else .ok (.range x y z)
       | _, _, _ => .error (.typeError "range arguments must be integers"))
  | "range", _ => .error (.typeError "range expected at most 3 arguments")
  | "type", _ => .error (.notModelled "class objects")
  | "sum", [v] =>
      (match pyIterList v with
       | some l => pySumList (.int 0) l
       | _ => .error (.typeError ("'" ++ typeName v ++ "' object is not iterable")))
  | "sum", [v, s] =>
      (match pyIterList v with
       | some l => pySumList s l
       | _ => .error (.typeError ("'" ++ typeName v ++ "' object is not iterable")))
  | "sum", _ => .error (.typeError "sum expected at most 2 arguments")
  | "min", [] => .error (.typeError "min expected at least 1 argument, got 0")
  | "min", [v] =>
      (match pyIterList v with
       | some [] => .error (.valueError "min() arg is an empty sequence")
       | some (x :: rest) => pyMinList x rest
       | _ => .error (.typeError ("'" ++ typeName v ++ "' object is not iterable")))
  | "min", v :: rest => pyMinList v rest
  | "max", [] => .error (.typeError "max expected at least 1 argument, got 0")
  | "max", [v] =>
      (match pyIterList v with
       | some [] => .error (.valueError "max() arg is an empty sequence")
       | some (x :: rest) => pyMaxList x rest
       | _ => .error (.typeError ("'" ++ typeName v ++ "' object is not iterable")))
  | "max", v :: rest => pyMaxList v rest
  | "enumerate", [v] =>
      (match pyIterList v with
       | some l => .ok (.list (l.enum.map (fun p => .tuple [.int p.1, p.2])))
       | _ => .error (.typeError ("'" ++ typeName v ++ "' object is not iterable")))
  | "enumerate", _ => .error (.notModelled "enumerate variant")
  | "bool", [] => .ok (.bool false)
  | "bool", [v] => .ok (.bool (truthy v))
  | "bool", _ => .error (.typeError "bool expected at most 1 argument")
  | "abs", [v] =>
      (match asNum v with
       | some n => .ok (.int (if n < 0 then -n else n))
       | _ => .error (.typeError ("bad operand type for abs(): '" ++ typeName v ++ "'")))
  | "abs", _ => .error (.typeError "abs() takes exactly one argument")
  | _, _ => .error (.notModelled ("builtin " ++ name))

/-- Call an arbitrary value (`func(*args)` in the evaluator's
normal-call branch). -/
def pyCallValue (func : PyVal) (args : List PyVal) : Except PyErr PyVal :=
  match func with
  | .builtin n => applyBuiltin n args
  | .boundMethod owner m => pyCallMethod owner m args
  | v => .error (.typeError ("'" ++ typeName v ++ "' object is not callable"))

/-! ## The expression AST (the `ast` node shapes `SafeEvaluator._eval_node`
dispatches on) -/

/-- `ast.BinOp` operators present in `SafeEvaluator._operators`. -/
inductive BinOp where
  | add | sub | mult | div | floorDiv | mod | pow
  deriving Repr, DecidableEq

/-- `ast.UnaryOp` operators (`UAdd` is *not* in `_operators`, so the
evaluator rejects it before evaluating the operand). -/
inductive UnOp where
  | usub | uadd | notOp
  deriving Repr, DecidableEq

/-- `ast.BoolOp` operators. -/
inductive BoolOpK where
  | andOp | orOp
  deriving Repr, DecidableEq

/-- `ast.Compare` operators present in `SafeEvaluator._operators`. -/
inductive CmpOp where
  | eq | ne | lt | le | gt | ge
  deriving Repr, DecidableEq

/-- The `ast` expression subset the engine's expression language uses
(literals, names, attribute access, subscripts, calls with positional
and keyword arguments, unary/binary/boolean/comparison operators,
list/tuple/dict displays). -/
inductive PExpr where
  | const (v : PyVal)
  | name (id : String)
  | attr (value : PExpr) (attrName : String)
  | call (func : PExpr) (args : List PExpr) (kwargs : List (String × PExpr))
  | binop (op : BinOp) (l r : PExpr)
  | unop (op : UnOp) (e : PExpr)
  | boolop (op : BoolOpK) (vals : List PExpr)
  | compare (l : PExpr) (rest : List (CmpOp × PExpr))
  | subscript (v : PExpr) (idx : PExpr)
  | listLit (elts : List PExpr)
  | tupleLit (elts : List PExpr)
  | dictLit (pairs : List (PExpr × PExpr))
  deriving Repr, Inhabited

/-! ## Expression tokenizer/parser — a model of `ast.parse(expr, mode="eval")`
restricted to the engine's expression subset.  Inputs outside the subset
(floats, lambdas, comprehensions, …) fail here as a syntax error; in
CPython some of those parse and then hit `_eval_node`'s final
"Unsupported syntax" `TypeError` instead — both are `TypeError`s from
`SafeEvaluator.evaluate`, and no claim exercises them. -/

/-- Expression tokens. -/
inductive ETok where
  | id (s : String)
  | num (n : Nat)
  | strLit (s : String)
  | sym (s : String)
  deriving Repr, DecidableEq

/-- Identifier start character. -/
def isIdStart (c : Char) : Bool := c.isAlpha || c = '_'

/-- Identifier continuation character. -/
def isIdChar (c : Char) : Bool := c.isAlphanum || c = '_'

/-- Scan a string literal body up to the closing quote. -/
def scanStr (quote : Char) : List Char → Option (String × List Char)
  | [] => Option.none
  | c :: rest =>
      if c = quote then some ("", rest)
      else if c = '\\' then
        match rest with
        | [] => Option.none
        | e :: rest2 =>
            let decoded : Char :=
              if e = 'n' then '\n' else if e = 't' then '\t'
              else if e = 'r' then '\r' else e
            match scanStr quote rest2 with
            | some (s, rem) => some (String.singleton decoded ++ s, rem)
            | Option.none => Option.none
      else
        match scanStr quote rest with
        | some (s, rem) => some (String.singleton c ++ s, rem)
        | Option.none => Option.none

/-- Tokenize an expression string.  Two-character symbols are matched
before their one-character prefixes, as in Python's tokenizer. -/
def etokenize (fuel : Nat) (cs : List Char) : Option (List ETok) :=
  match fuel with
  | 0 => Option.none
  | fuel + 1 =>
    match cs with
    | [] => some []
    | c :: rest =>
        if isPyWs c then etokenize fuel rest
        else if isIdStart c then
          let idChars := rest.takeWhile isIdChar
          let remaining := rest.drop idChars.length
          (etokenize fuel remaining).map (ETok.id ⟨c :: idChars⟩ :: ·)
        else if c.isDigit then
          let digits := rest.takeWhile Char.isDigit
          let remaining := rest.drop digits.length
          let n := (c :: digits).foldl (fun acc d => acc * 10 + (d.toNat - 48)) 0
          (etokenize fuel remaining).map (ETok.num n :: ·)
        else if c = '\'' || c = '"' then
          match scanStr c rest with
          | some (s, rem) => (etokenize fuel rem).map (ETok.strLit s :: ·)
          | Option.none => Option.none
        else
          let two : Option String :=
            match c, rest with
            | '*', '*' :: _ => some "**"
            | '/', '/' :: _ => some "//"
            | '=', '=' :: _ => some "=="
            | '!', '=' :: _ => some "!="
            | '<', '=' :: _ => some "<="
            | '>', '=' :: _ => some ">="
            | _, _ => Option.none
          match two with
          | some op => (etokenize fuel (rest.drop 1)).map (ETok.sym op :: ·)
          | Option.none =>
              if c ∈ ['(', ')', '[', ']', '\x7b', '\x7d', ',', '.', ':', '+',
                  '-', '*', '/', '%', '<', '>', '='] then
                (etokenize fuel rest).map (ETok.sym (String.singleton c) :: ·)
              else Option.none

/-- Python keywords that cannot be used as plain names in the subset. -/
def pyKeywords : List String :=
  ["True", "False", "None", "and", "or", "not", "in", "is", "for", "if",
   "else", "lambda"]

mutual

/-- `or`-chain (lowest precedence); chains flatten into one `BoolOp`
node, as in `ast`. -/
def parseOr (fuel : Nat) (ts : List ETok) : Option (PExpr × List ETok) :=
  match fuel with
  | 0 => Option.none
  | fuel + 1 => do
    let (first, ts) ← parseAnd fuel ts
    let (more, ts) ← parseOrRest fuel ts
    some (if more.isEmpty then (first, ts) else (.boolop .orOp (first :: more), ts))

/-- Further `or`-operands. -/
def parseOrRest (fuel : Nat) (ts : List ETok) : Option (List PExpr × List ETok) :=
  match fuel with
  | 0 => Option.none
  | fuel + 1 =>
    match ts with
    | .id "or" :: rest => do
        let (e, ts2) ← parseAnd fuel rest
        let (more, ts3) ← parseOrRest fuel ts2
        some (e :: more, ts3)
    | _ => some ([], ts)

/-- `and`-chain. -/
def parseAnd (fuel : Nat) (ts : List ETok) : Option (PExpr × List ETok) :=
  match fuel with
  | 0 => Option.none
  | fuel + 1 => do
    let (first, ts) ← parseNot fuel ts
    let (more, ts) ← parseAndRest fuel ts
    some (if more.isEmpty then (first, ts) else (.boolop .andOp (first :: more), ts))

/-- Further `and`-operands. -/
def parseAndRest (fuel : Nat) (ts : List ETok) : Option (List PExpr × List ETok) :=
  match fuel with
  | 0 => Option.none
  | fuel + 1 =>
    match ts with
    | .id "and" :: rest => do
        let (e, ts2) ← parseNot fuel rest
        let (more, ts3) ← parseAndRest fuel ts2
        some (e :: more, ts3)
    | _ => some ([], ts)

/-- `not` (binds looser than comparisons). -/
def parseNot (fuel : Nat) (ts : List ETok) : Option (PExpr × List ETok) :=
  match fuel with
  | 0 => Option.none
  | fuel + 1 =>
    match ts with
    | .id "not" :: rest => do
        let (e, ts2) ← parseNot fuel rest
        some (.unop .notOp e, ts2)
    | _ => parseComparison fuel ts

/-- Comparison chain (`a < b < c` becomes one `Compare` node). -/
def parseComparison (fuel : Nat) (ts : List ETok) : Option (PExpr × List ETok) :=
  match fuel with
  | 0 => Option.none
  | fuel + 1 => do
    let (l, ts) ← parseArith fuel ts
    let (rest, ts) ← parseCmpRest fuel ts
    some (if rest.isEmpty then (l, ts) else (.compare l rest, ts))

/-- Chained comparison operands. -/
def parseCmpRest (fuel : Nat) (ts : List ETok) :
    Option (List (CmpOp × PExpr) × List ETok) :=
  match fuel with
  | 0 => Option.none
  | fuel + 1 =>
    let op : Option CmpOp :=
      match ts with
      | .sym "==" :: _ => some .eq
      | .sym "!=" :: _ => some .ne
      | .sym "<=" :: _ => some .le
      | .sym ">=" :: _ => some .ge
      | .sym "<" :: _ => some .lt
      | .sym ">" :: _ => some .gt
      | _ => Option.none
    match op with
    | some o => do
        let (r, ts2) ← parseArith fuel (ts.drop 1)
        let (more, ts3) ← parseCmpRest fuel ts2
        some ((o, r) :: more, ts3)
    | Option.none => some ([], ts)

/-- Additive level, left-associative. -/
def parseArith (fuel : Nat) (ts : List ETok) : Option (PExpr × List ETok) :=
  match fuel with
  | 0 => Option.none
  | fuel + 1 => do
    let (l, ts) ← parseTerm fuel ts
    parseArithRest fuel l ts

/-- Fold further `+`/`-` operands onto the left operand. -/
def parseArithRest (fuel : Nat) (acc : PExpr) (ts : List ETok) :
    Option (PExpr × List ETok) :=
  match fuel with
  | 0 => Option.none
  | fuel + 1 =>
    match ts with
    | .sym "+" :: rest => do
        let (r, ts2) ← parseTerm fuel rest
        parseArithRest fuel (.binop .add acc r) ts2
    | .sym "-" :: rest => do
        let (r, ts2) ← parseTerm fuel rest
        parseArithRest fuel (.binop .sub acc r) ts2
    | _ => some (acc, ts)

/-- Multiplicative level, left-associative. -/
def parseTerm (fuel : Nat) (ts : List ETok) : Option (PExpr × List ETok) :=
  match fuel with
  | 0 => Option.none
  | fuel + 1 => do
    let (l, ts) ← parseFactor fuel ts
    parseTermRest fuel l ts

/-- Fold further `*`, `/`, `//`, `%` operands onto the left operand. -/
def parseTermRest (fuel : Nat) (acc : PExpr) (ts : List ETok) :
    Option (PExpr × List ETok) :=
  match fuel with
  | 0 => Option.none
  | fuel + 1 =>
    let op : Option BinOp :=
      match ts with
      | .sym "*" :: _ => some .mult
      | .sym "//" :: _ => some .floorDiv
      | .sym "/" :: _ => some .div
      | .sym "%" :: _ => some .mod
      | _ => Option.none
    match op with
    | some o => do
        let (r, ts2) ← parseFactor fuel (ts.drop 1)
        parseTermRest fuel (.binop o acc r) ts2
    | Option.none => some (acc, ts)

/-- Unary level. -/
def parseFactor (fuel : Nat) (ts : List ETok) : Option (PExpr × List ETok) :=
  match fuel with
  | 0 => Option.none
  | fuel + 1 =>
    match ts with
    | .sym "-" :: rest => do
        let (e, ts2) ← parseFactor fuel rest
        some (.unop .usub e, ts2)
    | .sym "+" :: rest => do
        let (e, ts2) ← parseFactor fuel rest
        some (.unop .uadd e, ts2)
    | _ => parsePower fuel ts

/-- Power level (`**` is right-associative with a unary exponent). -/
def parsePower (fuel : Nat) (ts : List ETok) : Option (PExpr × List ETok) :=
  match fuel with
  | 0 => Option.none
  | fuel + 1 => do
    let (b, ts) ← parsePostfix fuel ts
    match ts with
    | .sym "**" :: rest => do
        let (e, ts2) ← parseFactor fuel rest
        some (.binop .pow b e, ts2)
    | _ => some (b, ts)

/-- Postfix trailers: attribute access, calls, subscripts. -/
def parsePostfix (fuel : Nat) (ts : List ETok) : Option (PExpr × List ETok) :=
  match fuel with
  | 0 => Option.none
  | fuel + 1 => do
    let (a, ts) ← parseAtom fuel ts
    parseTrailers fuel a ts

/-- Apply trailers to a parsed base expression. -/
def parseTrailers (fuel : Nat) (base : PExpr) (ts : List ETok) :
    Option (PExpr × List ETok) :=
  match fuel with
  | 0 => Option.none
  | fuel + 1 =>
    match ts with
    | .sym "." :: .id s :: rest =>
        if s ∈ pyKeywords then Option.none
        else parseTrailers fuel (.attr base s) rest
    | .sym "(" :: .sym ")" :: rest => parseTrailers fuel (.call base [] []) rest
    | .sym "(" :: rest => do
        let (args, kwargs, ts2) ← parseArgs fuel rest
        match ts2 with
        | .sym ")" :: rest2 => parseTrailers fuel (.call base args kwargs) rest2
        | _ => Option.none
    | .sym "[" :: rest => do
        let (idx, ts2) ← parseOr fuel rest
        match ts2 with
        | .sym "]" :: rest2 => parseTrailers fuel (.subscript base idx) rest2
        | _ => Option.none
    | _ => some (base, ts)

/-- Call arguments: positional and `name=value` keyword items. -/
def parseArgs (fuel : Nat) (ts : List ETok) :
    Option (List PExpr × List (String × PExpr) × List ETok) :=
  match fuel with
  | 0 => Option.none
  | fuel + 1 =>
    match ts with
    | .id s :: .sym "=" :: rest =>
        if s ∈ pyKeywords then Option.none
        else do
          let (v, ts2) ← parseOr fuel rest
          match ts2 with
          | .sym "," :: rest2 => do
              let (args, kwargs, ts3) ← parseArgs fuel rest2
              some (args, (s, v) :: kwargs, ts3)
          | _ => some ([], [(s, v)], ts2)
    | _ => do
        let (e, ts2) ← parseOr fuel ts
        match ts2 with
        | .sym "," :: rest2 => do
            let (args, kwargs, ts3) ← parseArgs fuel rest2
            some (e :: args, kwargs, ts3)
        | _ => some ([e], [], ts2)

/-- Comma-separated expressions (list and tuple displays).  The boolean
reports whether any comma was seen (a parenthesized expression is a
tuple display exactly when it contains a comma); a trailing comma before
the closer is permitted. -/
def parseExprSeq (fuel : Nat) (closer : String) (ts : List ETok) :
    Option ((List PExpr × Bool) × List ETok) :=
  match fuel with
  | 0 => Option.none
  | fuel + 1 => do
    let (e, ts2) ← parseOr fuel ts
    match ts2 with
    | .sym "," :: .sym c :: rest =>
        if c = closer then some (([e], true), .sym c :: rest) else
        do
          let ((more, _), ts3) ← parseExprSeq fuel closer (.sym c :: rest)
          some ((e :: more, true), ts3)
    | .sym "," :: rest => do
        let ((more, _), ts3) ← parseExprSeq fuel closer rest
        some ((e :: more, true), ts3)
    | _ => some (([e], false), ts2)

/-- Dict display items. -/
def parseDictItems (fuel : Nat) (ts : List ETok) :
    Option (List (PExpr × PExpr) × List ETok) :=
  match fuel with
  | 0 => Option.none
  | fuel + 1 => do
    let (k, ts2) ← parseOr fuel ts
    match ts2 with
    | .sym ":" :: rest => do
        let (v, ts3) ← parseOr fuel rest
        match ts3 with
        | .sym "," :: rest2 =>
            (match rest2 with
             | .sym "\x7d" :: _ => some ([(k, v)], rest2)
             | _ => do
                let (more, ts4) ← parseDictItems fuel rest2
                some ((k, v) :: more, ts4))
        | _ => some ([(k, v)], ts3)
    | _ => Option.none

/-- Atoms: literals, names, parenthesized/tuple, list and dict
displays. -/
def parseAtom (fuel : Nat) (ts : List ETok) : Option (PExpr × List ETok) :=
  match fuel with
  | 0 => Option.none
  | fuel + 1 =>
    match ts with
    | .num n :: rest => some (.const (.int n), rest)
    | .strLit s :: rest => some (.const (.str s), rest)
    | .id "True" :: rest => some (.const (.bool true), rest)
    | .id "False" :: rest => some (.const (.bool false), rest)
    | .id "None" :: rest => some (.const .none, rest)
    | .id s :: rest =>
        if s ∈ pyKeywords then Option.none else some (.name s, rest)
    | .sym "(" :: .sym ")" :: rest => some (.tupleLit [], rest)
    | .sym "(" :: rest => do
        let ((es, sawComma), ts2) ← parseExprSeq fuel ")" rest
        match ts2 with
        | .sym ")" :: rest2 =>
            (match es, sawComma with
             | [e], false => some (e, rest2)
             | _, _ => some (.tupleLit es, rest2))
        | _ => Option.none
    | .sym "[" :: .sym "]" :: rest => some (.listLit [], rest)
    | .sym "[" :: rest => do
        let ((es, _), ts2) ← parseExprSeq fuel "]" rest
        match ts2 with
        | .sym "]" :: rest2 => some (.listLit es, rest2)
        | _ => Option.none
    | .sym "\x7b" :: .sym "\x7d" :: rest => some (.dictLit [], rest)
    | .sym "\x7b" :: rest => do
        let (ps, ts2) ← parseDictItems fuel rest
        match ts2 with
        | .sym "\x7d" :: rest2 => some (.dictLit ps, rest2)
        | _ => Option.none
    | _ => Option.none

end

/-- Parse an expression string to the `ast` subset (`ast.parse(expr,
mode="eval").body`).  The fuel comfortably exceeds any derivation depth
for the given token count. -/
def parsePyExpr (s : String) : Option PExpr := do
  let toks ← etokenize (s.length + 1) s.data
  let (e, rest) ← parseOr ((toks.length + 1) * 16) toks
  if rest.isEmpty then some e else Option.none

/-- The numeric-attribute preprocessing of `SafeEvaluator.evaluate`:
`re.fullmatch(r"([a-zA-Z_][a-zA-Z0-9_]*)\.(-?\d+)", expr)` rewrites
`items.0` to `items[0]`. -/
def numericAttrRewrite (s : String) : String :=
  match s.data with
  | [] => s
  | c :: rest =>
      if isIdStart c then
        let idChars := rest.takeWhile isIdChar
        match rest.drop idChars.length with
        | '.' :: ds =>
            let sign : String := if ds.head? = some '-' then "-" else ""
            let digits := if ds.head? = some '-' then ds.drop 1 else ds
            if !digits.isEmpty && digits.all Char.isDigit then
              String.mk (c :: idChars) ++ "[" ++ sign ++ String.mk digits ++ "]"
            else s
        | _ => s
      else s

namespace SafeEvaluator

/-! `SafeEvaluator._eval_node` from `sandbox.py`, case for case.  The
source's `isinstance(node.slice, ast.Constant)` shortcut in the
`Subscript` branch computes the same key as evaluating the constant, so
the model always evaluates the index expression. -/

mutual

/-- `SafeEvaluator._eval_node(node, context)`. -/
def evalNode (e : PExpr) (ctx : Ctx) : Except PyErr PyVal :=
  match e with
  | .const v => .ok v
  | .name id =>
      if id ∈ sandboxBuiltinNames then .ok (.builtin id)
      else .ok ((ctxGet ctx id).getD .none)
  | .attr value attrName =>
      -- 1. private names are rejected before the owner is evaluated
      if pyStartsWith attrName "_" then
        .error (.attributeError "Access to private attribute is not allowed in templates")
      else do
        let owner ← evalNode value ctx
        match owner with
        | .none => pure .none
        | _ =>
          -- 2. dict key lookup
          let fromDict : Option PyVal :=
            match owner with
            | .dict ps => dictLookup (.str attrName) ps
            | _ => Option.none
          match fromDict with
          | some v => pure v
          | Option.none =>
            -- 3. normal attribute lookup, with filter fallback on
            --    AttributeError
            match pyGetattr owner attrName with
            | Option.none =>
                if attrName ∈ filterNames then applyFilter attrName owner []
                else pure .none
            | some value =>
                -- 4. auto-call zero-arg bound methods when whitelisted
                if isBoundMethod value && isSafeMethod owner attrName then
                  match pyCallMethod owner attrName [] with
                  | .ok r => pure r
                  | .error (.typeError _) => pure value
                  | .error err => .error err
                else pure value
  | .call (.attr ownerExpr attrName) args kwargs => do
      -- method-or-filter call path (no private-name check here)
      let owner ← evalNode ownerExpr ctx
      match owner with
      | .none => pure .none
      | _ => do
        let argVals ← evalList args ctx
        let kwVals ← evalKwargs kwargs ctx
        match pyGetattr owner attrName with
        | some m =>
            if isCallable m then
              if isSafeMethod owner attrName then
                (if kwVals.isEmpty then pyCallMethod owner attrName argVals
                 else .error (.typeError (attrName ++ "() takes no keyword arguments")))
              else
                .error (.permissionError ("Calling method '" ++ attrName ++
                  "' is not allowed in templates"))
            else if attrName ∈ filterNames then
              (if kwVals.isEmpty then applyFilter attrName owner argVals
               else .error (.notModelled "filter keyword arguments"))
            else pure .none
        | Option.none =>
            if attrName ∈ filterNames then
              (if kwVals.isEmpty then applyFilter attrName owner argVals
               else .error (.notModelled "filter keyword arguments"))
            else pure .none
  | .call func args kwargs => do
      -- normal function call
      let f ← evalNode func ctx
      match f with
      | .none => .error (.typeError "Attempted to call a non-existent function")
      | _ => do
        let argVals ← evalList args ctx
        let kwVals ← evalKwargs kwargs ctx
        if kwVals.isEmpty then pyCallValue f argVals
        else .error (.notModelled "keyword arguments to builtins")
  | .binop op l r => do
      let lv ← evalNode l ctx
      let rv ← evalNode r ctx
      match op with
      | .add => pyAdd lv rv
      | .sub => pySub lv rv
      | .mult => pyMul lv rv
      | .div => pyDiv lv rv
      | .floorDiv => pyFloorDiv lv rv
      | .mod => pyMod lv rv
      | .pow => pyPow lv rv
  | .unop .uadd _ =>
      -- `ast.UAdd` is not in `_operators`
      .error (.typeError "Unsupported unary operator: UAdd")
  | .unop .usub e1 => do
      let v ← evalNode e1 ctx
      match asNum v with
      | some n => pure (.int (-n))
      | _ => .error (.typeError ("bad operand type for unary -: '" ++ typeName v ++ "'"))
  | .unop .notOp e1 => do
      let v ← evalNode e1 ctx
      pure (.bool (!truthy v))
  | .boolop op vals => do
      -- all operands are evaluated first, then folded
      let vs ← evalList vals ctx
      match vs with
      | [] => .error (.notModelled "empty BoolOp")
      | v :: rest =>
          pure (rest.foldl (fun acc x =>
            match op with
            | .andOp => if truthy acc then x else acc
            | .orOp => if truthy acc then acc else x) v)
  | .compare l rest => do
      let lv ← evalNode l ctx
      evalCompare lv rest ctx
  | .subscript v idx => do
      let target ← evalNode v ctx
      match target with
      | .none => pure .none
      | _ => do
        let key ← evalNode idx ctx
        match pySubscript target key with
        | .ok r => pure r
        | .error _ =>
            .error (.typeError ("Invalid index/key access on object of type " ++
              typeName target))
  | .listLit elts => do
      let vs ← evalList elts ctx
      pure (.list vs)
  | .tupleLit elts => do
      let vs ← evalList elts ctx
      pure (.tuple vs)
  | .dictLit pairs => do
      let ps ← evalPairs pairs ctx
      pure (.dict ps)

/-- Evaluate each element in order. -/
def evalList (es : List PExpr) (ctx : Ctx) : Except PyErr (List PyVal) :=
  match es with
  | [] => .ok []
  | e :: rest => do
      let v ← evalNode e ctx
      let vs ← evalList rest ctx
      pure (v :: vs)

/-- Evaluate keyword-argument values in order. -/
def evalKwargs (kws : List (String × PExpr)) (ctx : Ctx) :
    Except PyErr (List (String × PyVal)) :=
  match kws with
  | [] => .ok []
  | (k, e) :: rest => do
      let v ← evalNode e ctx
      let vs ← evalKwargs rest ctx
      pure ((k, v) :: vs)

/-- Evaluate dict-display pairs in order. -/
def evalPairs (ps : List (PExpr × PExpr)) (ctx : Ctx) :
    Except PyErr (List (PyVal × PyVal)) :=
  match ps with
  | [] => .ok []
  | (k, v) :: rest => do
      let kv ← evalNode k ctx
      let vv ← evalNode v ctx
      let vs ← evalPairs rest ctx
      pure ((kv, vv) :: vs)

/-- The chained-comparison loop: `if not op(left, right): return False;
left = right`, and `True` after the last link. -/
def evalCompare (left : PyVal) (rest : List (CmpOp × PExpr)) (ctx : Ctx) :
    Except PyErr PyVal :=
  match rest with
  | [] => .ok (.bool true)
  | (op, re) :: more => do
      let right ← evalNode re ctx
      let holds : Except PyErr Bool :=
        match op with
        | .eq => .ok (pyEq left right)
        | .ne => .ok (!pyEq left right)
        | .lt => (pyCmp left right).map (· = .lt)
        | .le => (pyCmp left right).map (fun o => o = .lt || o = .eq)
        | .gt => (pyCmp left right).map (· = .gt)
        | .ge => (pyCmp left right).map (fun o => o = .gt || o = .eq)
      match ← holds with
      | false => pure (.bool false)
      | true => evalCompare right more ctx

end

/-- `SafeEvaluator.evaluate(expression, context)`: empty expressions
answer `None`; the input is stripped, the numeric-attribute shorthand is
rewritten, `ast.parse` failures surface as the `TypeError` from the
source, and the tree is evaluated by `evalNode`. -/
def evaluate (expression : String) (ctx : Ctx) : Except PyErr PyVal :=
  if expression = "" then .ok .none
  else
    let expr := numericAttrRewrite (pyStrip expression)
    match parsePyExpr expr with
    | Option.none =>
        .error (.typeError ("Invalid expression syntax: " ++ pyRepr (.str expression)))
    | some t => evalNode t ctx

end SafeEvaluator

namespace ExpressionEvaluator

/-! Modelled from the spec: `evaluator.py` (the `ExpressionEvaluator`
class that `TemplateProcessor` instantiates per evaluation) is absent
from the source tree.  The model follows §4.3 of the specification:
restricted syntax subset, attribute resolution in the documented
precedence order (private → permission error; mapping key; whitelisted
zero-argument safe method auto-invoke; registered filter; undefined),
calls in whitelist-then-filter order with `PermissionError` for other
methods, the small builtin whitelist, and plain context lookup for other
names.  §7's error taxonomy names `UndefinedVariable` for names absent
from the context, which matches the repository's own tests
(`test_render_non_existent_variable`), so absence raises it. -/

/-- Modelled from the spec: the builtin whitelist of §4.3 ("length,
min/max, range, enumerate, bool, abs, sum"), with Python's `len` as the
spelling of "length". -/
def builtinNames : List String :=
  ["len", "range", "min", "max", "enumerate", "bool", "abs", "sum"]

mutual

/-- Modelled from the spec: evaluate one node of the restricted
expression grammar against the context (§4.3). -/
def evalNode (e : PExpr) (ctx : Ctx) : Except PyErr PyVal :=
  match e with
  | .const v => .ok v
  | .name id =>
      if id ∈ builtinNames then .ok (.builtin id)
      else
        match ctxGet ctx id with
        | some v => .ok v
        | Option.none => .error (.undefinedVariable ("'" ++ id ++ "'"))
  | .attr value attrName =>
      -- §4.3 rule 1: private names fail with a permission error
      if pyStartsWith attrName "_" then
        .error (.permissionError ("Access to private attribute '" ++ attrName ++
          "' is not allowed in templates"))
      else do
        let owner ← evalNode value ctx
        -- rule 2: mapping key
        let fromDict : Option PyVal :=
          match owner with
          | .dict ps => dictLookup (.str attrName) ps
          | _ => Option.none
        match fromDict with
        | some v => pure v
        | Option.none =>
          -- rule 3: whitelisted zero-argument safe method, auto-invoked
          if isSafeMethod owner attrName then
            match pyCallMethod owner attrName [] with
            | .ok r => pure r
            | .error (.typeError _) =>
                -- not zero-argument: fall through to the filter seam
                (if attrName ∈ filterNames then applyFilter attrName owner []
                 else pure .none)
            | .error err => .error err
          -- rule 4: registered filter, owner as first argument
          else if attrName ∈ filterNames then applyFilter attrName owner []
          -- rule 5: undefined
          else pure .none
  | .call (.attr ownerExpr attrName) args kwargs => do
      if pyStartsWith attrName "_" then
        .error (.permissionError ("Access to private attribute '" ++ attrName ++
          "' is not allowed in templates"))
      else do
        let owner ← evalNode ownerExpr ctx
        let argVals ← evalList args ctx
        let kwVals ← evalKwargs kwargs ctx
        if isSafeMethod owner attrName then
          (if kwVals.isEmpty then pyCallMethod owner attrName argVals
           else .error (.typeError (attrName ++ "() takes no keyword arguments")))
        else if attrName ∈ filterNames then
          (if kwVals.isEmpty then applyFilter attrName owner argVals
           else .error (.notModelled "filter keyword arguments"))
        else
          .error (.permissionError ("Calling method '" ++ attrName ++
            "' is not allowed in templates"))
  | .call func args kwargs => do
      let f ← evalNode func ctx
      let argVals ← evalList args ctx
      let kwVals ← evalKwargs kwargs ctx
      if kwVals.isEmpty then pyCallValue f argVals
      else .error (.notModelled "keyword arguments to builtins")
  | .binop op l r => do
      let lv ← evalNode l ctx
      let rv ← evalNode r ctx
      match op with
      | .add => pyAdd lv rv
      | .sub => pySub lv rv
      | .mult => pyMul lv rv
      | .div => pyDiv lv rv
      | .floorDiv => pyFloorDiv lv rv
      | .mod => pyMod lv rv
      | .pow => pyPow lv rv
  | .unop .uadd e1 => do
      let v ← evalNode e1 ctx
      match asNum v with
      | some n => pure (.int n)
      | _ => .error (.typeError ("bad operand type for unary +: '" ++ typeName v ++ "'"))
  | .unop .usub e1 => do
      let v ← evalNode e1 ctx
      match asNum v with
      | some n => pure (.int (-n))
      | _ => .error (.typeError ("bad operand type for unary -: '" ++ typeName v ++ "'"))
  | .unop .notOp e1 => do
      let v ← evalNode e1 ctx
      pure (.bool (!truthy v))
  | .boolop op vals => evalBoolChain op vals ctx
  | .compare l rest => do
      let lv ← evalNode l ctx
      evalCompare lv rest ctx
  | .subscript v idx => do
      let target ← evalNode v ctx
      let key ← evalNode idx ctx
      pySubscript target key
  | .listLit elts => do
      let vs ← evalList elts ctx
      pure (.list vs)
  | .tupleLit elts => do
      let vs ← evalList elts ctx
      pure (.tuple vs)
  | .dictLit pairs => do
      let ps ← evalPairs pairs ctx
      pure (.dict ps)

/-- Modelled from the spec: boolean operators short-circuit
left-to-right (§4.3). -/
def evalBoolChain (op : BoolOpK) (vals : List PExpr) (ctx : Ctx) :
    Except PyErr PyVal :=
  match vals with
  | [] => .error (.notModelled "empty BoolOp")
  | [e] => evalNode e ctx
  | e :: rest => do
      let v ← evalNode e ctx
      match op with
      | .andOp => if truthy v then evalBoolChain op rest ctx else pure v
      | .orOp => if truthy v then pure v else evalBoolChain op rest ctx

/-- Evaluate each element in order. -/
def evalList (es : List PExpr) (ctx : Ctx) : Except PyErr (List PyVal) :=
  match es with
  | [] => .ok []
  | e :: rest => do
      let v ← evalNode e ctx
      let vs ← evalList rest ctx
      pure (v :: vs)

/-- Evaluate keyword-argument values in order. -/
def evalKwargs (kws : List (String × PExpr)) (ctx : Ctx) :
    Except PyErr (List (String × PyVal)) :=
  match kws with
  | [] => .ok []
  | (k, e) :: rest => do
      let v ← evalNode e ctx
      let vs ← evalKwargs rest ctx
      pure ((k, v) :: vs)

/-- Evaluate dict-display pairs in order. -/
def evalPairs (ps : List (PExpr × PExpr)) (ctx : Ctx) :
    Except PyErr (List (PyVal × PyVal)) :=
  match ps with
  | [] => .ok []
  | (k, v) :: rest => do
      let kv ← evalNode k ctx
      let vv ← evalNode v ctx
      let vs ← evalPairs rest ctx
      pure ((kv, vv) :: vs)

/-- Chained comparisons evaluate link by link, left to right. -/
def evalCompare (left : PyVal) (rest : List (CmpOp × PExpr)) (ctx : Ctx) :
    Except PyErr PyVal :=
  match rest with
  | [] => .ok (.bool true)
  | (op, re) :: more => do
      let right ← evalNode re ctx
      let holds : Except PyErr Bool :=
        match op with
        | .eq => .ok (pyEq left right)
        | .ne => .ok (!pyEq left right)
        | .lt => (pyCmp left right).map (· = .lt)
        | .le => (pyCmp left right).map (fun o => o = .lt || o = .eq)
        | .gt => (pyCmp left right).map (· = .gt)
        | .ge => (pyCmp left right).map (fun o => o = .gt || o = .eq)
      match ← holds with
      | false => pure (.bool false)
      | true => evalCompare right more ctx

end

/-- Modelled from the spec: `ExpressionEvaluator(context).evaluate(expr)` —
parse the expression text into the restricted grammar and evaluate it
(§4.3). -/
def evaluate (expression : String) (ctx : Ctx) : Except PyErr PyVal :=
  if expression = "" then .ok .none
  else
    match parsePyExpr (pyStrip expression) with
    | Option.none =>
        .error (.typeError ("Invalid expression syntax: " ++ pyRepr (.str expression)))
    | some t => evalNode t ctx

end ExpressionEvaluator

/-! ## Template lexer

Modelled from the spec: `lexer.py` is absent from the source tree.  §4.1
fixes the recognition order (`{!!` > `{{` > `@`-letter > text), the
balanced-parenthesis capture of directive arguments, lex-time discarding
of `{# … #}` comment spans, and lex errors for unterminated tags.  The
token *type* names are fixed by `parser.py`, which dispatches on
`"TEXT"`, `"VAR_START"`, `"VAR_END"`, `"UNESCAPED_VAR_START"`,
`"UNESCAPED_VAR_END"`, `"DIRECTIVE"`, `"COMMENT_START"`,
`"COMMENT_END"`. -/

/-- Token kinds, named after the strings `parser.py` compares
`token.type` against. -/
inductive TokType where
  | text | varStart | varEnd | unescapedVarStart | unescapedVarEnd
  | expression | directive | commentStart | commentEnd
  deriving Repr, DecidableEq

/-- A lexer token: kind, raw value, and source position. -/
structure Tok where
  ttype : TokType
  value : String
  line : Nat
  col : Nat
  deriving Repr, DecidableEq

/-- Advance a (line, column) position over consumed characters. -/
def advancePos (line col : Nat) : List Char → Nat × Nat
  | [] => (line, col)
  | '\n' :: rest => advancePos (line + 1) 1 rest
  | _ :: rest => advancePos line (col + 1) rest

/-- Scan up to (and past) a two-character closing sequence, returning
the content before it and the remainder after it. -/
def scanToClose (a b : Char) : List Char → Option (List Char × List Char)
  | [] => Option.none
  | [_] => Option.none
  | c :: d :: rest =>
      if c = a && d = b then some ([], rest)
      else
        match scanToClose a b (d :: rest) with
        | some (content, rem) => some (c :: content, rem)
        | Option.none => Option.none

/-- Scan up to (and past) the three-character closer `!!}` of a raw
interpolation. -/
def scanToRawClose : List Char → Option (List Char × List Char)
  | [] => Option.none
  | [_] => Option.none
  | [_, _] => Option.none
  | c :: d :: e :: rest =>
      if c = '!' && d = '!' && e = '\x7d' then some ([], rest)
      else
        match scanToRawClose (d :: e :: rest) with
        | some (content, rem) => some (c :: content, rem)
        | Option.none => Option.none

/-- Scan a balanced-parenthesis argument group starting at `(`,
counting nested parentheses; returns the group including the outer
parentheses and the remainder. -/
def scanBalanced (depth : Nat) : List Char → Option (List Char × List Char)
  | [] => Option.none
  | c :: rest =>
      if c = '(' then
        match scanBalanced (depth + 1) rest with
        | some (grp, rem) => some (c :: grp, rem)
        | Option.none => Option.none
      else if c = ')' then
        if depth = 1 then some ([c], rest)
        else
          match scanBalanced (depth - 1) rest with
          | some (grp, rem) => some (c :: grp, rem)
          | Option.none => Option.none
      else
        match scanBalanced depth rest with
        | some (grp, rem) => some (c :: grp, rem)
        | Option.none => Option.none

/-- Is this position the start of a special sequence (used to end a
text run)? -/
def isSpecialStart : List Char → Bool
  | '{' :: '!' :: '!' :: _ => true
  | '{' :: '{' :: _ => true
  | '{' :: '#' :: _ => true
  | '@' :: c :: _ => c.isAlpha
  | _ => false

/-- Take a plain-text run up to the next special sequence. -/
def takeTextRun : List Char → List Char × List Char
  | [] => ([], [])
  | c :: rest =>
      if isSpecialStart (c :: rest) then ([], c :: rest)
      else
        let (run, rem) := takeTextRun rest
        (c :: run, rem)

/-- Modelled from the spec: the lexer main loop (`Lexer.tokenize`).
Interpolation contents are carried by a single `expression` token; the
parser only ever joins the token values between the opening and closing
interpolation tokens, so this is observationally the sub-tokenized
stream.  §4.1 mentions a terminating EOF token, but `parser.py` errors
on any token kind it does not know, so the model ends the stream without
a sentinel. -/
def lexLoop (fuel : Nat) (cs : List Char) (line col : Nat) :
    Except PyErr (List Tok) :=
  match fuel with
  | 0 => .error .fuelExhausted
  | fuel + 1 =>
    match cs with
    | [] => .ok []
    | '{' :: '!' :: '!' :: rest =>
        (match scanToRawClose rest with
         | Option.none =>
            .error (.syntaxError ("Unterminated raw interpolation at line " ++
              toString line ++ ", column " ++ toString col))
         | some (content, rem) =>
            let consumed := ['{', '!', '!'] ++ content ++ ['!', '!', '\x7d']
            let (line2, col2) := advancePos line col consumed
            (lexLoop fuel rem line2 col2).map (fun toks =>
              Tok.mk .unescapedVarStart "\x7b!!" line col ::
              Tok.mk .expression (String.mk content) line col ::
              Tok.mk .unescapedVarEnd "!!\x7d" line col :: toks))
    | '{' :: '{' :: rest =>
        (match scanToClose '}' '}' rest with
         | Option.none =>
            .error (.syntaxError ("Unterminated interpolation at line " ++
              toString line ++ ", column " ++ toString col))
         | some (content, rem) =>
            let consumed := ['{', '{'] ++ content ++ ['}', '}']
            let (line2, col2) := advancePos line col consumed
            (lexLoop fuel rem line2 col2).map (fun toks =>
              Tok.mk .varStart "\x7b\x7b" line col ::
              Tok.mk .expression (String.mk content) line col ::
              Tok.mk .varEnd "\x7d\x7d" line col :: toks))
    | '{' :: '#' :: rest =>
        (match scanToClose '#' '}' rest with
         | Option.none =>
            .error (.syntaxError ("Unterminated comment at line " ++
              toString line ++ ", column " ++ toString col))
         | some (content, rem) =>
            -- comment spans are discarded at lex time
            let consumed := ['{', '#'] ++ content ++ ['#', '}']
            let (line2, col2) := advancePos line col consumed
            lexLoop fuel rem line2 col2)
    | '@' :: c :: rest =>
        if c.isAlpha then
          let nameChars := c :: rest.takeWhile isIdChar
          let afterName := rest.drop (nameChars.length - 1)
          match afterName with
          | '(' :: _ =>
              (match scanBalanced 0 afterName with
               | Option.none =>
                  .error (.syntaxError ("Unterminated directive arguments at line " ++
                    toString line ++ ", column " ++ toString col))
               | some (grp, rem) =>
                  let value := "@" ++ String.mk nameChars ++ String.mk grp
                  let consumed := '@' :: nameChars ++ grp
                  let (line2, col2) := advancePos line col consumed
                  (lexLoop fuel rem line2 col2).map (fun toks =>
                    Tok.mk .directive value line col :: toks))
          | _ =>
              let value := "@" ++ String.mk nameChars
              let (line2, col2) := advancePos line col ('@' :: nameChars)
              (lexLoop fuel afterName line2 col2).map (fun toks =>
                Tok.mk .directive value line col :: toks)
        else
          let (run, rem) := takeTextRun ('@' :: c :: rest)
          let (line2, col2) := advancePos line col run
          (lexLoop fuel rem line2 col2).map (fun toks =>
            Tok.mk .text (String.mk run) line col :: toks)
    | cs =>
        let (run, rem) := takeTextRun cs
        match run with
        | [] => .error (.syntaxError "lexer made no progress")
        | _ =>
          let (line2, col2) := advancePos line col run
          (lexLoop fuel rem line2 col2).map (fun toks =>
            Tok.mk .text (String.mk run) line col :: toks)

/-- Modelled from the spec: `Lexer(template).tokenize()`. -/
def tokenize (template : String) : Except PyErr (List Tok) :=
  lexLoop (template.length + 1) template.data 1 1

/-! ## AST nodes (`nodes.py` shapes, as constructed by `parser.py`) -/

/-- The AST node variants `parser.py` can construct.  Node classes the
parser never instantiates (`TransNode`, `WithNode`, `NowNode`,
`RegroupNode`, `BlockNode`, …) have no constructor here: no directive in
either dispatch table of `parser.py` produces them, so they are
unreachable through the `Lexer → Parser → TemplateProcessor`
pipeline. -/
inductive Node where
  | textNode (content : String)
  | varNode (expression : String) (escaped : Bool)
  | ifNode (condition : String) (body : List Node)
      (elifBlocks : List (String × List Node)) (elseBody : Option (List Node))
  | forNode (itemVar : String) (collectionExpr : String) (body : List Node)
      (emptyBody : Option (List Node))
  | unlessNode (condition : String) (body : List Node)
  | switchNode (expression : String) (cases : List (String × List Node))
      (defaultBody : Option (List Node))
  | authNode (body : List Node) (elseBody : Option (List Node)) (guard : Option String)
  | guestNode (body : List Node) (elseBody : Option (List Node)) (guard : Option String)
  | includeNode (path : String)
  | extendsNode (layout : String)
  | sectionNode (name : String) (body : List Node)
  | yieldNode (name : String)
  | componentNode (name : String) (body : List Node)
  | slotNode (name : String) (body : List Node)
  | verbatimNode (content : String)
  | pythonNode (code : String)
  | commentNode (content : String)
  | cycleNode (values : String)
  | firstofNode (values : String)
  | urlNode (name : String)
  | staticNode (path : String)
  | csrfNode
  | methodNode (m : String)
  | styleNode (expression : String)
  | classNode (expression : String)
  | breakNode (condition : Option String)
  | continueNode (condition : Option String)
  deriving Repr, Inhabited

/-! ## Parser (`parser.py`) -/

/-- The directive-name/argument split
`re.match(r"@([a-zA-Z_][a-zA-Z0-9_]*)(.*)", value)` with `.strip()` on
the argument group (`.` does not cross a newline, so arguments are cut
at the first newline of the token value — none of the engine's own
lexers produce one). -/
def splitDirective (value : String) : Option (String × String) :=
  match value.data with
  | '@' :: c :: rest =>
      if isIdStart c then
        let nameChars := c :: rest.takeWhile isIdChar
        let after := rest.drop (nameChars.length - 1)
        let argsLine := after.takeWhile (· ≠ '\n')
        some (String.mk nameChars, pyStrip (String.mk argsLine))
      else Option.none
  | _ => Option.none

/-- `Parser._extract_expression_from_args`:
`re.match(r"^\s*\((.*)\)\s*$", args)` then `.strip()` of the group —
the trimmed argument string must be wrapped in parentheses, and the
greedy group spans from the first `(` to the last `)`. -/
def extractExpr (args : String) : Option String :=
  let t := pyStrip args
  match t.data with
  | '(' :: rest =>
      if rest.getLast? = some ')' then
        let inner := rest.dropLast
        if inner.contains '\n' then Option.none
        else some (pyStrip (String.mk inner))
      else Option.none
  | _ => Option.none

/-- `Parser._parse_for`'s argument regex
`^\s*\(\s*([a-zA-Z_][a-zA-Z0-9_]*)\s+in\s+(.+?)\s*\)\s*$`, yielding the
loop variable and the collection expression. -/
def parseForArgs (args : String) : Option (String × String) :=
  let t := pyStrip args
  match t.data with
  | '(' :: rest =>
    if rest.getLast? = some ')' then
      match rest.dropLast.dropWhile isPyWs with
      | c :: more =>
          if isIdStart c then
            let idChars := c :: more.takeWhile isIdChar
            let afterId := more.drop (idChars.length - 1)
            let ws1 := afterId.takeWhile isPyWs
            if ws1.isEmpty then Option.none
            else
              match afterId.drop ws1.length with
              | 'i' :: 'n' :: afterIn =>
                  let ws2 := afterIn.takeWhile isPyWs
                  let coll := afterIn.drop ws2.length
                  let collTrimmed := (coll.reverse.dropWhile isPyWs).reverse
                  if !ws2.isEmpty && !collTrimmed.isEmpty &&
                      !collTrimmed.contains '\n' then
                    some (String.mk idChars, String.mk collTrimmed)
                  else Option.none
              | _ => Option.none
          else Option.none
      | [] => Option.none
    else Option.none
  | _ => Option.none

/-- `re.match(r"@empty\s*\(.*\)", value)` — does an `@empty` directive
token carry arguments? -/
def emptyHasArgs (value : String) : Bool :=
  let after := (value.data.drop 6).dropWhile isPyWs
  match after with
  | '(' :: rest => (rest.takeWhile (· ≠ '\n')).contains ')'
  | _ => false

/-- `Parser.expect(token_type, value_prefix)`.  At end of stream the
source evaluates `token.line` on `None` while building the error, so the
failure there is an `AttributeError`. -/
def expectTok (ttype : TokType) (vpre : Option String) (toks : List Tok) :
    Except PyErr (Tok × List Tok) :=
  match toks with
  | [] => .error (.attributeError "'NoneType' object has no attribute 'line'")
  | t :: rest =>
      if t.ttype ≠ ttype then
        .error (.templateRenderError ("Expected token of type but got " ++ t.value))
      else
        match vpre with
        | some p =>
            if pyStartsWith t.value p then .ok (t, rest)
            else .error (.templateRenderError ("Expected token value starting with '" ++
              p ++ "' but got '" ++ t.value ++ "'"))
        | Option.none => .ok (t, rest)

/-- `Parser._parse_variable`: join the token values between the opening
and closing interpolation tokens and strip the result. -/
def parseVariable (escaped : Bool) (toks : List Tok) :
    Except PyErr (Node × List Tok) := do
  let startType := if escaped then TokType.varStart else TokType.unescapedVarStart
  let endType := if escaped then TokType.varEnd else TokType.unescapedVarEnd
  let (_, toks) ← expectTok startType Option.none toks
  let parts := toks.takeWhile (fun t => t.ttype ≠ endType)
  let rest := toks.drop parts.length
  let expression := pyStrip (String.join (parts.map Tok.value))
  let (_, rest) ← expectTok endType Option.none rest
  pure (.varNode expression escaped, rest)

/-- Collect the raw token values up to a directive token with the given
literal value (for `@verbatim`/`@python`/`@comment` bodies). -/
def takeUntilDirectiveValue (stopValue : String) (toks : List Tok) :
    (List String × List Tok) :=
  match toks with
  | [] => ([], [])
  | t :: rest =>
      if t.ttype = .directive && t.value = stopValue then ([], t :: rest)
      else
        let (vals, rem) := takeUntilDirectiveValue stopValue rest
        (t.value :: vals, rem)

/-- Invalid-arguments error of `_extract_expression_from_args`. -/
def invalidArgsErr (dname args : String) : PyErr :=
  .directiveParsingError ("Invalid arguments for " ++ dname ++ ": '" ++ args ++
    "'. Expected parentheses.")

mutual

/-- `Parser.parse()` — the top-level loop.  Directive names with no
dispatch branch and not in the `elif/else/endif/empty/endfor` error list
(`block`, `endblock`, `trans`, `case`, …) are consumed without producing
a node, exactly as in the source, which has no final `else` in its
dispatch chain. -/
def parseTop (fuel : Nat) (toks : List Tok) : Except PyErr (List Node) :=
  match fuel with
  | 0 => .error .fuelExhausted
  | fuel + 1 =>
    match toks with
    | [] => .ok []
    | t :: rest =>
      match t.ttype with
      | .text => (parseTop fuel rest).map (.textNode t.value :: ·)
      | .varStart => do
          let (n, toks2) ← parseVariable true (t :: rest)
          (parseTop fuel toks2).map (n :: ·)
      | .unescapedVarStart => do
          let (n, toks2) ← parseVariable false (t :: rest)
          (parseTop fuel toks2).map (n :: ·)
      | .directive =>
          (match splitDirective t.value with
           | Option.none => .error (.syntaxError ("Invalid directive format: " ++ t.value))
           | some (name, args) =>
              if name = "extends" then
                match extractExpr args with
                | some layout => (parseTop fuel rest).map (.extendsNode layout :: ·)
                | Option.none => .error (invalidArgsErr "@extends" args)
              else if name = "section" then do
                match extractExpr args with
                | some nm => do
                    let (body, toks2) ← parseUntil fuel ["@endsection"] rest
                    let (_, toks3) ← expectTok .directive (some "@endsection") toks2
                    (parseTop fuel toks3).map (.sectionNode nm body :: ·)
                | Option.none => .error (invalidArgsErr "@section" args)
              else if name = "yield" then
                (parseTop fuel rest).map (.yieldNode args :: ·)
              else if name ∈ ["elif", "else", "endif", "empty", "endfor"] then
                .error (.directiveParsingError ("Unexpected directive '@" ++ name ++
                  "' at top level or outside its block."))
              else do
                match ← parseCommonDirective fuel name args rest with
                | some (n, toks2) => (parseTop fuel toks2).map (n :: ·)
                | Option.none => parseTop fuel rest)
      | _ => .error (.templateRenderError ("Unexpected token type with value '" ++
          t.value ++ "'"))

/-- The directive branches shared between `Parser.parse` and
`Parser._parse_until_directives` (every dispatch entry of the latter).
Answers `none` for names neither table handles, which both loops skip
silently. -/
def parseCommonDirective (fuel : Nat) (name args : String) (toks : List Tok) :
    Except PyErr (Option (Node × List Tok)) :=
  match fuel with
  | 0 => .error .fuelExhausted
  | fuel + 1 =>
    if name = "if" then (parseIfBlock fuel args toks).map some
    else if name = "unless" then do
      match extractExpr args with
      | some cond => do
          let (body, toks2) ← parseUntil fuel ["@endunless"] toks
          let (_, toks3) ← expectTok .directive (some "@endunless") toks2
          pure (some (.unlessNode cond body, toks3))
      | Option.none => .error (invalidArgsErr "@unless" args)
    else if name = "for" then (parseForBlock fuel args toks).map some
    else if name = "switch" then do
      match extractExpr args with
      | some expr => (parseSwitchTail fuel expr [] Option.none toks).map some
      | Option.none => .error (invalidArgsErr "@switch" args)
    else if name = "auth" then do
      let guard ← (if args = "" then pure Option.none else
        match extractExpr args with
        | some g => pure (some g)
        | Option.none => .error (invalidArgsErr "@auth" args))
      let (body, toks2) ← parseUntil fuel ["@else", "@endauth"] toks
      match toks2 with
      | t2 :: rest2 =>
          if pyStartsWith t2.value "@else" then do
            let (elseB, toks3) ← parseUntil fuel ["@endauth"] rest2
            let (_, toks4) ← expectTok .directive (some "@endauth") toks3
            pure (some (.authNode body (some elseB) guard, toks4))
          else do
            let (_, toks3) ← expectTok .directive (some "@endauth") toks2
            pure (some (.authNode body Option.none guard, toks3))
      | [] => do
          let (_, toks3) ← expectTok .directive (some "@endauth") toks2
          pure (some (.authNode body Option.none guard, toks3))
    else if name = "guest" then do
      let guard ← (if args = "" then pure Option.none else
        match extractExpr args with
        | some g => pure (some g)
        | Option.none => .error (invalidArgsErr "@guest" args))
      let (body, toks2) ← parseUntil fuel ["@else", "@endguest"] toks
      match toks2 with
      | t2 :: rest2 =>
          if pyStartsWith t2.value "@else" then do
            let (elseB, toks3) ← parseUntil fuel ["@endguest"] rest2
            let (_, toks4) ← expectTok .directive (some "@endguest") toks3
            pure (some (.guestNode body (some elseB) guard, toks4))
          else do
            let (_, toks3) ← expectTok .directive (some "@endguest") toks2
            pure (some (.guestNode body Option.none guard, toks3))
      | [] => do
          let (_, toks3) ← expectTok .directive (some "@endguest") toks2
          pure (some (.guestNode body Option.none guard, toks3))
    else if name = "component" then do
      let (body, toks2) ← parseUntil fuel ["@endcomponent"] toks
      let (_, toks3) ← expectTok .directive (some "@endcomponent") toks2
      pure (some (.componentNode args body, toks3))
    else if name = "slot" then do
      match extractExpr args with
      | some nm => do
          let (body, toks2) ← parseUntil fuel ["@endslot"] toks
          let (_, toks3) ← expectTok .directive (some "@endslot") toks2
          pure (some (.slotNode nm body, toks3))
      | Option.none => .error (invalidArgsErr "@slot" args)
    else if name = "verbatim" then do
      let (vals, toks2) := takeUntilDirectiveValue "@endverbatim" toks
      let (_, toks3) ← expectTok .directive (some "@endverbatim") toks2
      pure (some (.verbatimNode (String.join vals), toks3))
    else if name = "python" then do
      let (vals, toks2) := takeUntilDirectiveValue "@endpython" toks
      let (_, toks3) ← expectTok .directive (some "@endpython") toks2
      pure (some (.pythonNode (String.join vals), toks3))
    else if name = "comment" then do
      let (vals, toks2) := takeUntilDirectiveValue "@endcomment" toks
      let (_, toks3) ← expectTok .directive (some "@endcomment") toks2
      pure (some (.commentNode (String.join vals), toks3))
    else if name = "include" then pure (some (.includeNode args, toks))
    else if name = "cycle" then pure (some (.cycleNode args, toks))
    else if name = "firstof" then pure (some (.firstofNode args, toks))
    else if name = "url" then pure (some (.urlNode args, toks))
    else if name = "static" then
      match extractExpr args with
      | some p => pure (some (.staticNode p, toks))
      | Option.none => .error (invalidArgsErr "@static" args)
    else if name = "csrf" then pure (some (.csrfNode, toks))
    else if name = "method" then
      match extractExpr args with
      | some m => pure (some (.methodNode m, toks))
      | Option.none => .error (invalidArgsErr "@method" args)
    else if name = "style" then
      match extractExpr args with
      | some e => pure (some (.styleNode e, toks))
      | Option.none => .error (invalidArgsErr "@style" args)
    else if name = "class" then
      match extractExpr args with
      | some e => pure (some (.classNode e, toks))
      | Option.none => .error (invalidArgsErr "@class" args)
    else if name = "break" then
      (if args = "" then pure (some (.breakNode Option.none, toks)) else
       match extractExpr args with
       | some c => pure (some (.breakNode (some c), toks))
       | Option.none => .error (invalidArgsErr "@break" args))
    else if name = "continue" then
      (if args = "" then pure (some (.continueNode Option.none, toks)) else
       match extractExpr args with
       | some c => pure (some (.continueNode (some c), toks))
       | Option.none => .error (invalidArgsErr "@continue" args))
    else pure Option.none

/-- `Parser._parse_if` plus its `elif`/`else`/`endif` loop. -/
def parseIfBlock (fuel : Nat) (args : String) (toks : List Tok) :
    Except PyErr (Node × List Tok) :=
  match fuel with
  | 0 => .error .fuelExhausted
  | fuel + 1 =>
    match extractExpr args with
    | Option.none => .error (invalidArgsErr "@if" args)
    | some cond => do
        let (body, toks2) ← parseUntil fuel ["@elif", "@else", "@endif"] toks
        parseIfTail fuel cond body [] Option.none toks2

/-- The `while`-loop of `Parser._parse_if` over `@elif`/`@else` arms,
ending at `@endif` (which `expect` then consumes). -/
def parseIfTail (fuel : Nat) (cond : String) (body : List Node)
    (elifs : List (String × List Node)) (elseB : Option (List Node))
    (toks : List Tok) : Except PyErr (Node × List Tok) :=
  match fuel with
  | 0 => .error .fuelExhausted
  | fuel + 1 =>
    match toks with
    | t :: rest =>
        if t.ttype = .directive then
          let (name, args) := (splitDirective t.value).getD ("", "")
          if name = "elif" then do
            match extractExpr args with
            | Option.none => .error (invalidArgsErr "@elif" args)
            | some econd => do
                let (ebody, toks2) ← parseUntil fuel ["@elif", "@else", "@endif"] rest
                parseIfTail fuel cond body (elifs ++ [(econd, ebody)]) elseB toks2
          else if name = "else" then do
            if args ≠ "" then
              .error (.directiveParsingError "Directive '@else' should not have arguments.")
            else do
              let (eb, toks2) ← parseUntil fuel ["@endif"] rest
              parseIfTail fuel cond body elifs (some eb) toks2
          else if name = "endif" then do
            let (_, toks2) ← expectTok .directive (some "@endif") (t :: rest)
            pure (.ifNode cond body elifs elseB, toks2)
          else
            .error (.directiveParsingError ("Unexpected directive '@" ++ name ++
              "' inside @if block."))
        else do
          let (_, toks2) ← expectTok .directive (some "@endif") (t :: rest)
          pure (.ifNode cond body elifs elseB, toks2)
    | [] => do
        let (_, toks2) ← expectTok .directive (some "@endif") []
        pure (.ifNode cond body elifs elseB, toks2)

/-- `Parser._parse_for` with the optional `@empty` arm. -/
def parseForBlock (fuel : Nat) (args : String) (toks : List Tok) :
    Except PyErr (Node × List Tok) :=
  match fuel with
  | 0 => .error .fuelExhausted
  | fuel + 1 =>
    match parseForArgs args with
    | Option.none =>
        .error (.syntaxError ("Invalid @for loop syntax: '" ++ args ++
          "'. Expected '(item in collection)'."))
    | some (itemVar, collectionExpr) => do
        let (body, toks2) ← parseUntil fuel ["@empty", "@endfor"] toks
        match toks2 with
        | t :: rest =>
            if t.ttype = .directive &&
                ((splitDirective t.value).map Prod.fst = some "empty") then do
              if emptyHasArgs t.value then
                .error (.directiveParsingError "Directive '@empty' should not have arguments.")
              else do
                let (ebody, toks3) ← parseUntil fuel ["@endfor"] rest
                let (_, toks4) ← expectTok .directive (some "@endfor") toks3
                pure (.forNode itemVar collectionExpr body (some ebody), toks4)
            else do
              let (_, toks3) ← expectTok .directive (some "@endfor") toks2
              pure (.forNode itemVar collectionExpr body Option.none, toks3)
        | [] => do
            let (_, toks3) ← expectTok .directive (some "@endfor") toks2
            pure (.forNode itemVar collectionExpr body Option.none, toks3)

/-- The case/default loop of `Parser._parse_switch` (tokens between
arms are skipped by `advance`). -/
def parseSwitchTail (fuel : Nat) (expr : String)
    (cases : List (String × List Node)) (defaultB : Option (List Node))
    (toks : List Tok) : Except PyErr (Node × List Tok) :=
  match fuel with
  | 0 => .error .fuelExhausted
  | fuel + 1 =>
    match toks with
    | t :: rest =>
        if t.ttype = .directive then
          let (name, args) := (splitDirective t.value).getD ("", "")
          if name = "case" then do
            match extractExpr args with
            | Option.none => .error (invalidArgsErr "@case" args)
            | some cv => do
                let (cbody, toks2) ←
                  parseUntil fuel ["@case", "@default", "@endswitch"] rest
                parseSwitchTail fuel expr (cases ++ [(cv, cbody)]) defaultB toks2
          else if name = "default" then do
            let (db, toks2) ← parseUntil fuel ["@endswitch"] rest
            parseSwitchTail fuel expr cases (some db) toks2
          else if name = "endswitch" then do
            let (_, toks2) ← expectTok .directive (some "@endswitch") (t :: rest)
            pure (.switchNode expr cases defaultB, toks2)
          else parseSwitchTail fuel expr cases defaultB rest
        else parseSwitchTail fuel expr cases defaultB rest
    | [] => do
        let (_, toks2) ← expectTok .directive (some "@endswitch") []
        pure (.switchNode expr cases defaultB, toks2)

/-- `Parser._parse_until_directives(stops)`: terminator directives are
returned unconsumed; nested constructs recurse through the shared
dispatch (which, unlike the top level, has no `extends`/`section`/
`yield` branch — those directives are silently dropped inside a block);
end of stream without a terminator is a syntax error. -/
def parseUntil (fuel : Nat) (stops : List String) (toks : List Tok) :
    Except PyErr (List Node × List Tok) :=
  match fuel with
  | 0 => .error .fuelExhausted
  | fuel + 1 =>
    match toks with
    | [] =>
        .error (.syntaxError ("Expected one of " ++ String.intercalate ", " stops ++
          " but reached end of template without closure."))
    | t :: rest =>
      match t.ttype with
      | .directive =>
          (match splitDirective t.value with
           | some (name, args) =>
              if ("@" ++ name) ∈ stops then .ok ([], t :: rest)
              else do
                match ← parseCommonDirective fuel name args rest with
                | some (n, toks2) => do
                    let (ns, toks3) ← parseUntil fuel stops toks2
                    pure (n :: ns, toks3)
                | Option.none => parseUntil fuel stops rest
           | Option.none => parseUntil fuel stops rest)
      | .text => do
          let (ns, toks2) ← parseUntil fuel stops rest
          pure (.textNode t.value :: ns, toks2)
      | .varStart => do
          let (n, toks2) ← parseVariable true (t :: rest)
          let (ns, toks3) ← parseUntil fuel stops toks2
          pure (n :: ns, toks3)
      | .unescapedVarStart => do
          let (n, toks2) ← parseVariable false (t :: rest)
          let (ns, toks3) ← parseUntil fuel stops toks2
          pure (n :: ns, toks3)
      | _ =>
          .error (.templateRenderError ("Unexpected token type in _parse_until_directives: with value '" ++
            t.value ++ "'"))

end

/-- `Parser(tokens).parse()` — comment tokens are filtered out in
`Parser.__init__`, then the top-level loop consumes the stream. -/
def parseTokens (toks : List Tok) : Except PyErr (List Node) :=
  let filtered := toks.filter (fun t =>
    t.ttype ≠ .commentStart && t.ttype ≠ .commentEnd)
  parseTop ((filtered.length + 2) * 8) filtered

/-! ## Renderer (`TemplateProcessor` of `processor.py`)

Rendering threads the mutable `self.context` dict explicitly: every
render function returns its (possibly comment) output together with the
context as mutated so far; a propagating exception also carries the
context at the raise point.  `BreakLoop`/`ContinueLoop` travel as
`PyErr.breakLoop`/`PyErr.continueLoop` and are therefore caught by every
`except Exception` handler they pass, exactly as in the source. -/

/-- The message of the `TypeError` CPython raises at
`processor.py:363`, where `render_for` calls
`LoopContext(items_to_iterate, parent=old_loop)` although
`LoopContext.__init__` (`contexts.py:4`) accepts only `items`.  Every
iteration of the loop body, and the binding-restore logic after it
(`processor.py:366-391`), sits after this call and is unreachable. -/
def loopCtxTypeErrorMsg : String :=
  "LoopContext.__init__() got an unexpected keyword argument 'parent'"

/-- Update dict pairs at a key (Python `d[k] = v`): replace the first
`==`-equal key, else append. -/
def dictSetVal (pairs : List (PyVal × PyVal)) (k v : PyVal) :
    List (PyVal × PyVal) :=
  match pairs with
  | [] => [(k, v)]
  | (k2, v2) :: rest =>
      if pyEq k2 k then (k2, v) :: rest else (k2, v2) :: dictSetVal rest k v

/-- `self.eval(expression, context)` — a fresh `ExpressionEvaluator`
over the current context. -/
def procEval (expression : String) (ctx : Ctx) : Except PyErr PyVal :=
  ExpressionEvaluator.evaluate expression ctx

/-- One step of a body loop: propagate an exception from the first
render, else run the continuation on the mutated context and append. -/
def seqRender (r1 : (Except PyErr String) × Ctx)
    (k : Ctx → (Except PyErr String) × Ctx) : (Except PyErr String) × Ctx :=
  match r1 with
  | (.error e, c) => (.error e, c)
  | (.ok s, c) =>
      match k c with
      | (.error e, c2) => (.error e, c2)
      | (.ok s2, c2) => (.ok (s ++ s2), c2)

/-- `TemplateProcessor.render_variable`: evaluate the interpolation
expression, stringify, HTML-escape unless raw — and catch every
exception into an inline diagnostic comment. -/
def renderVariable (expression : String) (escaped : Bool) (ctx : Ctx) :
    (Except PyErr String) × Ctx :=
  match ExpressionEvaluator.evaluate expression ctx with
  | .ok v => (.ok (if escaped then htmlEscape (pyStr v) else pyStr v), ctx)
  | .error e =>
      (.ok ("<!-- Error rendering '" ++ expression ++ "': " ++
        e.message ++ " -->"), ctx)

/-- The `is_authenticated` probe shared by `render_auth`/`render_guest`:
`getattr(user, "is_authenticated", False)` over context `user`, falling
back to `request.user`.  No modelled value carries an
`is_authenticated` attribute, so the default `False` is what remains
once the `getattr` defaults resolve. -/
def authFlag (ctx : Ctx) : Bool :=
  let probe := fun (user : PyVal) =>
    truthy ((pyGetattr user "is_authenticated").getD (.bool false))
  match ctxGet ctx "user" with
  | some user =>
      if truthy user then probe user
      else
        (match ctxGet ctx "request" with
         | some request =>
            if truthy request then
              (match pyGetattr request "user" with
               | some u => if truthy u then probe u else false
               | Option.none => false)
            else false
         | Option.none => false)
  | Option.none =>
      match ctxGet ctx "request" with
      | some request =>
          if truthy request then
            (match pyGetattr request "user" with
             | some u => if truthy u then probe u else false
             | Option.none => false)
          else false
      | Option.none => false


/-- `TemplateProcessor.render_include`: evaluates the argument tuple,
then calls `loader.load_template(path)` with `template_dirs=None`,
whose `for directory in template_dirs:` raises `TypeError`; the
`try`/`except` turns every failure into the comment. -/
def renderInclude (path : String) (ctx : Ctx) : (Except PyErr String) × Ctx :=
  let comment := fun (e : PyErr) => "<!-- Error including '" ++ path ++
    "': " ++ e.message ++ " -->"
  match procEval ("(" ++ path ++ ")") ctx with
  | .error e => (.ok (comment e), ctx)
  | .ok _ =>
      (.ok (comment (.typeError "'NoneType' object is not iterable")), ctx)

/-- `TemplateProcessor.render_extends`: evaluate the layout expression
and record it under the `__extends` context key. -/
def renderExtends (layout : String) (ctx : Ctx) : (Except PyErr String) × Ctx :=
  match procEval layout ctx with
  | .error e =>
      (.ok ("<!-- Error extending '" ++ layout ++ "': " ++
        e.message ++ " -->"), ctx)
  | .ok layoutPath => (.ok "", ctxSet ctx "__extends" layoutPath)

/-- `TemplateProcessor.render_yield`: look the evaluated name up in
`__sections` (name evaluation errors propagate — no `try`/`except`). -/
def renderYield (name : String) (ctx : Ctx) : (Except PyErr String) × Ctx :=
  match procEval name ctx with
  | .error e => (.error e, ctx)
  | .ok nameV =>
      let sections :=
        match ctxGet ctx "__sections" with
        | some (.dict ps) => ps
        | _ => []
      match dictLookup nameV sections with
      | some (.str s) => (.ok s, ctx)
      | some v => (.ok (pyStr v), ctx)
      | Option.none => (.ok "", ctx)

/-- `TemplateProcessor.render_cycle`: pick `values[loop.index % len]`,
with every failure (bare `except`) answered by the empty string. -/
def renderCycle (values : String) (ctx : Ctx) : (Except PyErr String) × Ctx :=
  match procEval ("(" ++ values ++ ")") ctx with
  | .error _ => (.ok "", ctx)
  | .ok v =>
      let vals : List PyVal :=
        match v with
        | .list l => l
        | .tuple l => l
        | other => [other]
      match ctxGet ctx "loop" with
      | some (.loopCtx _total idx) =>
          if vals.isEmpty then (.ok "", ctx)  -- ZeroDivisionError caught
          else
            (match vals.get? (idx.toNat % vals.length) with
             | some x => (.ok (pyStr x), ctx)
             | Option.none => (.ok "", ctx))
      | some other =>
          if truthy other then (.ok "", ctx)  -- loop.index AttributeError caught
          else
            (match vals.head? with
             | some x => (.ok (pyStr x), ctx)
             | Option.none => (.ok "", ctx))
      | Option.none =>
          (match vals.head? with
           | some x => (.ok (pyStr x), ctx)
           | Option.none => (.ok "", ctx))

/-- `TemplateProcessor.render_firstof`: the first truthy argument,
stringified; every failure answers the empty string. -/
def renderFirstof (values : String) (ctx : Ctx) : (Except PyErr String) × Ctx :=
  match procEval ("(" ++ values ++ ")") ctx with
  | .error _ => (.ok "", ctx)
  | .ok v =>
      let vals : List PyVal :=
        match v with
        | .tuple l => l
        | other => [other]
      match vals.find? truthy with
      | some x => (.ok (pyStr x), ctx)
      | Option.none => (.ok "", ctx)

/-- `TemplateProcessor.render_static` — no `try`/`except`: evaluation
errors propagate. -/
def renderStatic (path : String) (ctx : Ctx) : (Except PyErr String) × Ctx :=
  match procEval path ctx with
  | .error e => (.error e, ctx)
  | .ok p => (.ok ("/static/" ++ pyStr p), ctx)

/-- `TemplateProcessor.render_csrf`. -/
def renderCsrf (ctx : Ctx) : (Except PyErr String) × Ctx :=
  let token := (ctxGet ctx "csrf_token").getD (.str "")
  (.ok ("<input type=\"hidden\" name=\"csrfmiddlewaretoken\" value=\"" ++
    pyStr token ++ "\">"), ctx)

/-- `TemplateProcessor.render_method` — evaluation errors propagate. -/
def renderMethod (m : String) (ctx : Ctx) : (Except PyErr String) × Ctx :=
  match procEval m ctx with
  | .error e => (.error e, ctx)
  | .ok v =>
      (.ok ("<input type=\"hidden\" name=\"_method\" value=\"" ++
        pyStr v ++ "\">"), ctx)

/-- `TemplateProcessor.render_style`: truthy-valued keys of a dict,
stripped and joined; any failure (a non-string key's missing `.strip`)
is caught to the empty string. -/
def renderStyle (expression : String) (ctx : Ctx) : (Except PyErr String) × Ctx :=
  match procEval expression ctx with
  | .error _ => (.ok "", ctx)
  | .ok v =>
      match v with
      | .dict ps =>
          let chosen := ps.filter (fun p => truthy p.2)
          if chosen.all (fun p => p.1 matches PyVal.str _) then
            let ks := chosen.map (fun p =>
              match p.1 with
              | .str s => pyStrip s
              | other => pyStr other)
            if ks.isEmpty then (.ok "", ctx)
            else (.ok ("style=\"" ++ String.intercalate " " ks ++ "\""), ctx)
          else (.ok "", ctx)  -- k.strip() AttributeError, caught
      | _ => (.ok "", ctx)

/-- `TemplateProcessor.render_class` — like `render_style` without the
strip. -/
def renderClass (expression : String) (ctx : Ctx) : (Except PyErr String) × Ctx :=
  match procEval expression ctx with
  | .error _ => (.ok "", ctx)
  | .ok v =>
      match v with
      | .dict ps =>
          let chosen := ps.filter (fun p => truthy p.2)
          if chosen.all (fun p => p.1 matches PyVal.str _) then
            let ks := chosen.map (fun p =>
              match p.1 with
              | .str s => s
              | other => pyStr other)
            if ks.isEmpty then (.ok "", ctx)
            else (.ok ("class=\"" ++ String.intercalate " " ks ++ "\""), ctx)
          else (.ok "", ctx)  -- " ".join TypeError, caught
      | _ => (.ok "", ctx)

/-- `TemplateProcessor.render_break`: raise `BreakLoop` when the
(optional) condition holds; condition errors propagate (no
`try`/`except`). -/
def renderBreak (condition : Option String) (ctx : Ctx) :
    (Except PyErr String) × Ctx :=
  match condition with
  | some c =>
      (match procEval c ctx with
       | .error e => (.error e, ctx)
       | .ok v => if truthy v then (.error .breakLoop, ctx) else (.ok "", ctx))
  | Option.none => (.error .breakLoop, ctx)

/-- `TemplateProcessor.render_continue`. -/
def renderContinue (condition : Option String) (ctx : Ctx) :
    (Except PyErr String) × Ctx :=
  match condition with
  | some c =>
      (match procEval c ctx with
       | .error e => (.error e, ctx)
       | .ok v => if truthy v then (.error .continueLoop, ctx) else (.ok "", ctx))
  | Option.none => (.error .continueLoop, ctx)

/- Fuel convention: every function of the render group peels one unit of
fuel per call, so the recursion is structural on the fuel argument; any
fuel exceeding the total node count of the template is ample, and
`PyErr.fuelExhausted` is unreachable at the budgets used below. -/
set_option maxHeartbeats 1600000 in
mutual

/-- `TemplateProcessor.render_node` — dispatch over node variants, one
branch per `isinstance` check; children render with decremented fuel. -/
def renderNode (fuel : Nat) (n : Node) (ctx : Ctx) :
    (Except PyErr String) × Ctx :=
  match fuel with
  | 0 => (.error .fuelExhausted, ctx)
  | fuel + 1 =>
    match n with
    | .textNode content => (.ok content, ctx)
    | .varNode expression escaped => renderVariable expression escaped ctx
    | .ifNode cond body elifs elseB => renderIf fuel cond body elifs elseB ctx
    | .forNode itemVar collectionExpr body emptyBody =>
        renderFor fuel itemVar collectionExpr body emptyBody ctx
    | .unlessNode cond body => renderUnless fuel cond body ctx
    | .switchNode expression cases defaultB =>
        renderSwitch fuel expression cases defaultB ctx
    | .authNode body elseB guard => renderAuth fuel body elseB guard ctx
    | .guestNode body elseB guard => renderGuest fuel body elseB guard ctx
    | .includeNode path => renderInclude path ctx
    | .extendsNode layout => renderExtends layout ctx
    | .sectionNode name body => renderSection fuel name body ctx
    | .yieldNode name => renderYield name ctx
    | .componentNode name body => renderComponent fuel name body ctx
    | .slotNode name body => renderSlot fuel name body ctx
    | .verbatimNode content => (.ok content, ctx)
    | .pythonNode _ => (.ok "", ctx)
    | .commentNode _ => (.ok "", ctx)
    | .cycleNode values => renderCycle values ctx
    | .firstofNode values => renderFirstof values ctx
    | .urlNode _ => (.ok "", ctx)
    | .staticNode path => renderStatic path ctx
    | .csrfNode => renderCsrf ctx
    | .methodNode m => renderMethod m ctx
    | .styleNode expression => renderStyle expression ctx
    | .classNode expression => renderClass expression ctx
    | .breakNode condition => renderBreak condition ctx
    | .continueNode condition => renderContinue condition ctx

/-- `TemplateProcessor.render_if`: the `try` block spans the condition,
the `elif` conditions and all body rendering, so body exceptions
(`BreakLoop` included) also turn into the inline comment. -/
def renderIf (fuel : Nat) (cond : String) (body : List Node)
    (elifs : List (String × List Node)) (elseB : Option (List Node))
    (ctx : Ctx) : (Except PyErr String) × Ctx :=
  match fuel with
  | 0 => (.error .fuelExhausted, ctx)
  | fuel + 1 =>
  let comment := fun (e : PyErr) => "<!-- Error evaluating if condition '" ++
    cond ++ "': " ++ e.message ++ " -->"
  match procEval cond ctx with
  | .error e => (.ok (comment e), ctx)
  | .ok cv =>
      if truthy cv then
        match renderNodes fuel body ctx with
        | (.ok s, ctx2) => (.ok s, ctx2)
        | (.error e, ctx2) => (.ok (comment e), ctx2)
      else
        match renderElifs fuel elifs ctx with
        | (.error e, ctx2) => (.ok (comment e), ctx2)
        | (.ok (some s), ctx2) => (.ok s, ctx2)
        | (.ok Option.none, ctx2) =>
            match elseB with
            | some eb =>
                (match renderNodes fuel eb ctx2 with
                 | (.ok s, ctx3) => (.ok s, ctx3)
                 | (.error e, ctx3) => (.ok (comment e), ctx3))
            | Option.none => (.ok "", ctx2)

/-- `TemplateProcessor.render_for`: everything sits in one
`try`/`except`; after the collection evaluates, the iterability check
and the `@empty` arm are the only reachable parts, because the
`LoopContext(items_to_iterate, parent=old_loop)` call raises `TypeError`
(`contexts.py`'s constructor takes no `parent`) before any iteration —
the backups at `processor.py:360-361` are plain reads, so the context is
untouched when the handler builds the comment. -/
def renderFor (fuel : Nat) (itemVar collectionExpr : String)
    (body : List Node) (emptyBody : Option (List Node)) (ctx : Ctx) :
    (Except PyErr String) × Ctx :=
  match fuel with
  | 0 => (.error .fuelExhausted, ctx)
  | fuel + 1 =>
  let _ := (itemVar, body)
  let comment := fun (e : PyErr) => "<!-- Error evaluating for loop '" ++
    collectionExpr ++ "': " ++ e.message ++ " -->"
  match procEval collectionExpr ctx with
  | .error e => (.ok (comment e), ctx)
  | .ok iterable =>
      if !hasIter iterable then
        (.ok (comment (.typeError ("'" ++ collectionExpr ++
          "' is not iterable."))), ctx)
      else if !truthy iterable && emptyBody.isSome then
        match renderNodes fuel (emptyBody.getD []) ctx with
        | (.ok s, ctx2) => (.ok s, ctx2)
        | (.error e, ctx2) => (.ok (comment e), ctx2)
      else
        (.ok (comment (.typeError loopCtxTypeErrorMsg)), ctx)

/-- `TemplateProcessor.render_unless`. -/
def renderUnless (fuel : Nat) (cond : String) (body : List Node) (ctx : Ctx) :
    (Except PyErr String) × Ctx :=
  match fuel with
  | 0 => (.error .fuelExhausted, ctx)
  | fuel + 1 =>
  let comment := fun (e : PyErr) => "<!-- Error evaluating unless condition '" ++
    cond ++ "': " ++ e.message ++ " -->"
  match procEval cond ctx with
  | .error e => (.ok (comment e), ctx)
  | .ok cv =>
      if !truthy cv then
        match renderNodes fuel body ctx with
        | (.ok s, ctx2) => (.ok s, ctx2)
        | (.error e, ctx2) => (.ok (comment e), ctx2)
      else (.ok "", ctx)

/-- `TemplateProcessor.render_switch`. -/
def renderSwitch (fuel : Nat) (expression : String)
    (cases : List (String × List Node)) (defaultB : Option (List Node))
    (ctx : Ctx) : (Except PyErr String) × Ctx :=
  match fuel with
  | 0 => (.error .fuelExhausted, ctx)
  | fuel + 1 =>
  let comment := fun (e : PyErr) => "<!-- Error evaluating switch '" ++
    expression ++ "': " ++ e.message ++ " -->"
  match procEval expression ctx with
  | .error e => (.ok (comment e), ctx)
  | .ok sv =>
      match renderCases fuel sv cases ctx with
      | (.error e, ctx2) => (.ok (comment e), ctx2)
      | (.ok (some s), ctx2) => (.ok s, ctx2)
      | (.ok Option.none, ctx2) =>
          match defaultB with
          | some db =>
              (match renderNodes fuel db ctx2 with
               | (.ok s, ctx3) => (.ok s, ctx3)
               | (.error e, ctx3) => (.ok (comment e), ctx3))
          | Option.none => (.ok "", ctx2)

/-- `TemplateProcessor.render_auth`: the `is_authenticated` probe over
context `user`/`request`; no `try`/`except`, body errors propagate. -/
def renderAuth (fuel : Nat) (body : List Node) (elseB : Option (List Node))
    (_guard : Option String) (ctx : Ctx) : (Except PyErr String) × Ctx :=
  match fuel with
  | 0 => (.error .fuelExhausted, ctx)
  | fuel + 1 =>
  if authFlag ctx then renderNodes fuel body ctx
  else
    match elseB with
    | some eb => renderNodes fuel eb ctx
    | Option.none => (.ok "", ctx)

/-- `TemplateProcessor.render_guest`. -/
def renderGuest (fuel : Nat) (body : List Node) (elseB : Option (List Node))
    (_guard : Option String) (ctx : Ctx) : (Except PyErr String) × Ctx :=
  match fuel with
  | 0 => (.error .fuelExhausted, ctx)
  | fuel + 1 =>
  if !authFlag ctx then renderNodes fuel body ctx
  else
    match elseB with
    | some eb => renderNodes fuel eb ctx
    | Option.none => (.ok "", ctx)

/-- `TemplateProcessor.render_section`: body render and name evaluation
have no `try`/`except`, their errors propagate; the content is stored in
the `__sections` context dict. -/
def renderSection (fuel : Nat) (name : String) (body : List Node) (ctx : Ctx) :
    (Except PyErr String) × Ctx :=
  match fuel with
  | 0 => (.error .fuelExhausted, ctx)
  | fuel + 1 =>
  match renderNodes fuel body ctx with
  | (.error e, ctx2) => (.error e, ctx2)
  | (.ok content, ctx2) =>
      match procEval name ctx2 with
      | .error e => (.error e, ctx2)
      | .ok nameV =>
          let pairs :=
            match ctxGet ctx2 "__sections" with
            | some (.dict ps) => ps
            | _ => []
          (.ok "", ctxSet ctx2 "__sections"
            (.dict (dictSetVal pairs nameV (.str content))))

/-- `TemplateProcessor.render_component`: argument evaluation, then the
default-slot body renders (context mutations persist), then
`loader.load_template` raises and the `try`/`except` yields the
comment. -/
def renderComponent (fuel : Nat) (name : String) (body : List Node)
    (ctx : Ctx) : (Except PyErr String) × Ctx :=
  match fuel with
  | 0 => (.error .fuelExhausted, ctx)
  | fuel + 1 =>
  let comment := fun (e : PyErr) => "<!-- Error rendering component '" ++
    name ++ "': " ++ e.message ++ " -->"
  match procEval ("(" ++ name ++ ")") ctx with
  | .error e => (.ok (comment e), ctx)
  | .ok _ =>
      match renderNodes fuel body ctx with
      | (.error e, ctx2) => (.ok (comment e), ctx2)
      | (.ok _, ctx2) =>
          (.ok (comment (.typeError "'NoneType' object is not iterable")), ctx2)

/-- `TemplateProcessor.render_slot`: no `try`/`except`; the rendered
content is stored in the context under the evaluated name (context keys
are strings in the model; a slot name is a string in every reachable
template). -/
def renderSlot (fuel : Nat) (name : String) (body : List Node) (ctx : Ctx) :
    (Except PyErr String) × Ctx :=
  match fuel with
  | 0 => (.error .fuelExhausted, ctx)
  | fuel + 1 =>
  match renderNodes fuel body ctx with
  | (.error e, ctx2) => (.error e, ctx2)
  | (.ok content, ctx2) =>
      match procEval name ctx2 with
      | .error e => (.error e, ctx2)
      | .ok nameV => (.ok "", ctxSet ctx2 (pyStr nameV) (.str content))

/-- A body loop: `for child in nodes: result = render_node(child);
if result: output.append(result)` — appending only truthy strings is
concatenation; exceptions stop the loop and propagate. -/
def renderNodes (fuel : Nat) (ns : List Node) (ctx : Ctx) :
    (Except PyErr String) × Ctx :=
  match fuel with
  | 0 => (.error .fuelExhausted, ctx)
  | fuel + 1 =>
  match ns with
  | [] => (.ok "", ctx)
  | n :: rest => seqRender (renderNode fuel n ctx) (renderNodes fuel rest)

/-- The `elif` loop of `render_if`: evaluate conditions in order and
render the first truthy arm. -/
def renderElifs (fuel : Nat) (blocks : List (String × List Node)) (ctx : Ctx) :
    (Except PyErr (Option String)) × Ctx :=
  match fuel with
  | 0 => (.error .fuelExhausted, ctx)
  | fuel + 1 =>
  match blocks with
  | [] => (.ok Option.none, ctx)
  | (cond, body) :: rest =>
      match procEval cond ctx with
      | .error e => (.error e, ctx)
      | .ok cv =>
          if truthy cv then
            match renderNodes fuel body ctx with
            | (.error e, ctx2) => (.error e, ctx2)
            | (.ok s, ctx2) => (.ok (some s), ctx2)
          else renderElifs fuel rest ctx

/-- The case loop of `render_switch`: evaluate case values in order and
render the first `==`-equal arm. -/
def renderCases (fuel : Nat) (sv : PyVal) (cases : List (String × List Node))
    (ctx : Ctx) : (Except PyErr (Option String)) × Ctx :=
  match fuel with
  | 0 => (.error .fuelExhausted, ctx)
  | fuel + 1 =>
  match cases with
  | [] => (.ok Option.none, ctx)
  | (cexpr, body) :: rest =>
      match procEval cexpr ctx with
      | .error e => (.error e, ctx)
      | .ok cv =>
          if pyEq sv cv then
            match renderNodes fuel body ctx with
            | (.error e, ctx2) => (.error e, ctx2)
            | (.ok s, ctx2) => (.ok (some s), ctx2)
          else renderCases fuel sv rest ctx

end

/-! ## Template cache and the top-level render

Modelled from the spec: `cache.py` (`TemplateCache`) is absent from the
source tree.  §4.5: the key is a stable fingerprint of the source text
and a serialization of the context; capacity-bounded with oldest-first
eviction.  The model is clock-free, so TTL expiry (a behaviour no claim
depends on) does not occur within a render, and every modelled context
value serializes stably (the always-miss escape hatch for unhashable
values is likewise unexercised). -/

/-- Modelled from the spec: a cache entry key — the template source
paired with a serialization of the context. -/
def serializeCtx (ctx : Ctx) : String :=
  pyStr (.dict (ctx.map (fun p => (.str p.1, p.2))))

/-- Modelled from the spec: `TemplateCache` state. -/
structure Cache where
  entries : List ((String × String) × String)
  maxSize : Nat
  deriving Repr, DecidableEq

/-- Modelled from the spec: `TemplateCache.get(template, context)`. -/
def cacheGet (c : Cache) (template : String) (ctx : Ctx) : Option String :=
  (c.entries.find? (fun e => e.1 = (template, serializeCtx ctx))).map Prod.snd

/-- Modelled from the spec: `TemplateCache.set(template, context,
result)` with oldest-first eviction at capacity. -/
def cacheSet (c : Cache) (template : String) (ctx : Ctx) (result : String) :
    Cache :=
  let key := (template, serializeCtx ctx)
  let es := c.entries.filter (fun e => e.1 ≠ key) ++ [(key, result)]
  { c with entries := if es.length > c.maxSize then es.drop (es.length - c.maxSize) else es }

/-- A fresh `TemplateCache(max_size=1000, ttl=3600)` as built by
`TemplateProcessor.__init__`. -/
def emptyCache : Cache := ⟨[], 1000⟩

/-- `TemplateProcessor.render(template, context)`: check the cache; on a
miss lex, parse, render every top-level node (`str(result)` appended
when not `None` — always, since render functions return strings), join,
write the cache entry, and return; any exception along the way is
re-raised by the `except Exception as e: raise e` handler, before the
`cache.set` line is ever reached.  The cache key on `set` uses the
context object *after* rendering mutated it. -/
def renderTemplate (fuel : Nat) (template : String) (ctx : Ctx)
    (cache : Cache) : (Except PyErr (String × Ctx)) × Cache :=
  match cacheGet cache template ctx with
  | some s => (.ok (s, ctx), cache)
  | Option.none =>
      match tokenize template with
      | .error e => (.error e, cache)
      | .ok toks =>
        match parseTokens toks with
        | .error e => (.error e, cache)
        | .ok ast =>
          match renderNodes fuel ast ctx with
          | (.error e, _ctxAtRaise) => (.error e, cache)
          | (.ok out, ctx2) => (.ok (out, ctx2), cacheSet cache template ctx2 out)

/-- One-shot render against a fresh processor: `TemplateProcessor()
.render(template, context)` with an empty cache and ample fuel (the
render recursion is bounded by AST depth; 64 exceeds any depth in this
development). -/
def render (template : String) (ctx : Ctx) : Except PyErr (String × Ctx) :=
  (renderTemplate 64 template ctx emptyCache).1

/-- Just the output text of a render (the value
`TemplateProcessor.render` returns). -/
def renderOut (template : String) (ctx : Ctx) : Except PyErr String :=
  (render template ctx).map Prod.fst

/-! ## Claim-support definitions -/

/-- Is a result a raised `PermissionError`? -/
def isPermissionError : Except PyErr PyVal → Bool
  | .error (.permissionError _) => true
  | _ => false

/-- Is an exception propagating out of this result? -/
def isErrResult {α : Type} : Except PyErr α → Bool
  | .error _ => true
  | .ok _ => false

/-- `owner is None`. -/
def isNone : PyVal → Bool
  | .none => true
  | _ => false

/-- The mapping-key step of attribute resolution: the keyed value when
the owner is a mapping carrying the attribute name as a key. -/
def mappingKeyLookup (owner : PyVal) (attrName : String) : Option PyVal :=
  match owner with
  | .dict ps => dictLookup (.str attrName) ps
  | _ => Option.none

/-- The attribute-resolution precedence the sandbox actually implements
for a non-underscore attribute (the amended form of the documented
order): `None` owner short-circuits to `None`; then mapping key; then a
plain `getattr` — the value is auto-invoked only when it is a bound
method whitelisted for the owner's type (answering the method object
itself when the zero-argument call raises `TypeError`), any other found
attribute is returned raw; only when `getattr` fails does a registered
filter run with the owner as argument; otherwise the attribute is
undefined (`None`). -/
def attrResolutionSpec (owner : PyVal) (attrName : String) :
    Except PyErr PyVal :=
  if isNone owner then .ok .none
  else
    match mappingKeyLookup owner attrName with
    | some v => .ok v
    | Option.none =>
        match pyGetattr owner attrName with
        | some value =>
            if isBoundMethod value && isSafeMethod owner attrName then
              match pyCallMethod owner attrName [] with
              | .ok r => .ok r
              | .error (.typeError _) => .ok value
              | .error e => .error e
            else .ok value
        | Option.none =>
            if attrName ∈ filterNames then applyFilter attrName owner []
            else .ok .none

/-- Nodes a round-trip template may contain: text and interpolations. -/
def isTextVar : Node → Bool
  | .textNode _ => true
  | .varNode _ _ => true
  | _ => false

/-- Every interpolation expression evaluates without error. -/
def varsEvalOk (ns : List Node) (ctx : Ctx) : Bool :=
  ns.all (fun n =>
    match n with
    | .varNode e _ => !isErrResult (ExpressionEvaluator.evaluate e ctx)
    | _ => true)

/-- The round-trip output the spec describes: text reproduced verbatim,
each escaped interpolation replaced by its value HTML-escaped, each raw
interpolation replaced by its value with HTML characters left alone. -/
def specRoundTrip (ns : List Node) (ctx : Ctx) : String :=
  match ns with
  | [] => ""
  | .textNode c :: rest => c ++ specRoundTrip rest ctx
  | .varNode e esc :: rest =>
      (match ExpressionEvaluator.evaluate e ctx with
       | .ok v => if esc then htmlEscape (pyStr v) else pyStr v
       | .error _ => "") ++ specRoundTrip rest ctx
  | _ :: rest => specRoundTrip rest ctx

/-! ## Claim theorems -/

/-- C1 (counterexample): evaluating `x._private` with the sandboxed
evaluator raises AttributeError, not PermissionError — the private-name
guard at sandbox.py:104-106 raises the wrong exception class. -/
theorem C1_counterexample :
    SafeEvaluator.evaluate "x._private" [("x", .int 1)] =
      .error (.attributeError "Access to private attribute is not allowed in templates") ∧
    isPermissionError (SafeEvaluator.evaluate "x._private" [("x", .int 1)]) = false :=
  ⟨rfl, rfl⟩

/-- C1 (amended): for every attribute whose name starts with an
underscore, the sandboxed evaluator raises AttributeError before the
owner expression is even evaluated, so the private state is never
executed or returned; and calling a method that getattr resolves to a
callable not on the per-type whitelist raises PermissionError. -/
theorem C1_theorem (ctx : Ctx) (value : PExpr) (attrName : String)
    (hpriv : pyStartsWith attrName "_" = true)
    (ownerE : PExpr) (mName : String) (owner meth : PyVal)
    (args : List PExpr) (kwargs : List (String × PExpr))
    (argVals : List PyVal) (kwVals : List (String × PyVal))
    (hOwner : SafeEvaluator.evalNode ownerE ctx = .ok owner)
    (hNotNone : isNone owner = false)
    (hArgs : SafeEvaluator.evalList args ctx = .ok argVals)
    (hKw : SafeEvaluator.evalKwargs kwargs ctx = .ok kwVals)
    (hGet : pyGetattr owner mName = some meth)
    (hCallable : isCallable meth = true)
    (hUnsafe : isSafeMethod owner mName = false) :
    SafeEvaluator.evalNode (.attr value attrName) ctx =
      .error (.attributeError "Access to private attribute is not allowed in templates") ∧
    SafeEvaluator.evalNode (.call (.attr ownerE mName) args kwargs) ctx =
      .error (.permissionError ("Calling method '" ++ mName ++ "' is not allowed in templates")) := by
  constructor
  · simp [SafeEvaluator.evalNode, hpriv]
  · simp only [SafeEvaluator.evalNode, hOwner, hArgs, hKw, hGet, hCallable, hUnsafe,
      bind, Except.bind]
    cases owner <;> simp_all [isNone]

/-- C1 (witness): the amended theorem at the private attribute `s._x`
and the non-whitelisted method call `s.split()` over a string. -/
theorem C1_witness :
    (pyStartsWith "_x" "_" = true) ∧
    SafeEvaluator.evalNode (.attr (.name "s") "_x") [("s", PyVal.str "ab")] =
      .error (.attributeError "Access to private attribute is not allowed in templates") ∧
    SafeEvaluator.evalNode (.call (.attr (.name "s") "split") [] []) [("s", PyVal.str "ab")] =
      .error (.permissionError ("Calling method '" ++ "split" ++ "' is not allowed in templates")) := by
  have h := C1_theorem [("s", .str "ab")] (.name "s") "_x" (by decide) (.name "s") "split"
    (.str "ab") (.boundMethod (.str "ab") "split") [] [] [] []
    rfl rfl rfl rfl rfl rfl rfl
  exact ⟨by decide, h.1, h.2⟩

/-- C2: against every context, both break and continue loop templates
render the inline for-loop error comment — the
`LoopContext(items, parent=old_loop)` call at processor.py:363 raises
TypeError before any iteration, so the outputs are never the specified
"012" and "0134". -/
theorem C2_theorem (ctx : Ctx) :
    (renderOut "@for(i in range(5))\x7b\x7b i \x7d\x7d@break(i==2)@endfor" ctx =
      .ok "<!-- Error evaluating for loop 'range(5)': LoopContext.__init__() got an unexpected keyword argument 'parent' -->" ∧
     renderOut "@for(i in range(5))@continue(i==2)\x7b\x7b i \x7d\x7d@endfor" ctx =
      .ok "<!-- Error evaluating for loop 'range(5)': LoopContext.__init__() got an unexpected keyword argument 'parent' -->") ∧
    renderOut "@for(i in range(5))\x7b\x7b i \x7d\x7d@break(i==2)@endfor" ctx ≠ .ok "012" ∧
    renderOut "@for(i in range(5))@continue(i==2)\x7b\x7b i \x7d\x7d@endfor" ctx ≠ .ok "0134" := by
  have h1 : renderOut "@for(i in range(5))\x7b\x7b i \x7d\x7d@break(i==2)@endfor" ctx =
      .ok "<!-- Error evaluating for loop 'range(5)': LoopContext.__init__() got an unexpected keyword argument 'parent' -->" := rfl
  have h2 : renderOut "@for(i in range(5))@continue(i==2)\x7b\x7b i \x7d\x7d@endfor" ctx =
      .ok "<!-- Error evaluating for loop 'range(5)': LoopContext.__init__() got an unexpected keyword argument 'parent' -->" := rfl
  refine ⟨⟨h1, h2⟩, ?_, ?_⟩
  · rw [h1]
    exact fun h => absurd (Except.ok.inj h) (by decide)
  · rw [h2]
    exact fun h => absurd (Except.ok.inj h) (by decide)

/-- C3: the child template renders "Child" only because the parser
silently drops the `@block`/`@endblock` directives and leaves the body
text in place; the recorded `__extends` layout is never loaded, and a
layout whose body holds a block renders its own default ("Default") even
when the context carries a recorded override for that block. -/
theorem C3_theorem :
    render "@extends('layout')@block('title')Child@endblock" [] =
      .ok ("Child", [("__extends", .str "layout")]) ∧
    renderOut "@block('title')Default@endblock"
      [("__blocks", .dict [(.str "title", .str "Child")])] = .ok "Default" :=
  ⟨rfl, rfl⟩

/-- C4: rendering a for loop leaves every context unchanged, but only
vacuously — the loop fails with the LoopContext TypeError before binding
the loop variable, renders the inline comment instead of its body, and
the restore code at processor.py:383-391 is never reached. -/
theorem C4_theorem (ctx : Ctx) :
    render "@for(x in [1,2])\x7b\x7b x \x7d\x7d@endfor" ctx =
      .ok ("<!-- Error evaluating for loop '[1,2]': LoopContext.__init__() got an unexpected keyword argument 'parent' -->", ctx) :=
  rfl

/-- C5: nested if directives match their own closing directives — the
inner body renders exactly when both conditions hold, and a false outer
condition suppresses the inner block for every value of `b`. -/
theorem C5_theorem (bv : PyVal) :
    renderOut "@if(a)@if(b)X@endif@endif" [("a", .bool true), ("b", .bool true)] = .ok "X" ∧
    renderOut "@if(a)@if(b)X@endif@endif" [("a", .bool true), ("b", .bool false)] = .ok "" ∧
    renderOut "@if(a)@if(b)X@endif@endif" [("a", .bool false), ("b", bv)] = .ok "" :=
  ⟨rfl, rfl, rfl⟩

/-- C6: a template of only text and interpolation nodes whose
expressions all evaluate renders, at any sufficient fuel, to exactly the
spec round trip — text verbatim, escaped interpolations HTML-escaped,
raw interpolations left unescaped — without touching the context. -/
theorem C6_theorem (fuel : Nat) (ns : List Node) (ctx : Ctx)
    (hall : ns.all isTextVar = true)
    (hok : varsEvalOk ns ctx = true)
    (hfuel : ns.length < fuel) :
    renderNodes fuel ns ctx = (.ok (specRoundTrip ns ctx), ctx) := by
  induction ns generalizing fuel ctx with
  | nil =>
      obtain ⟨f, rfl⟩ : ∃ f, fuel = f + 1 := ⟨fuel - 1, by omega⟩
      simp [renderNodes, specRoundTrip]
  | cons n rest ih =>
      simp only [List.length_cons] at hfuel
      obtain ⟨g, rfl⟩ : ∃ g, fuel = g + 2 := ⟨fuel - 2, by omega⟩
      simp only [List.all_cons, Bool.and_eq_true] at hall
      obtain ⟨hn, hall2⟩ := hall
      simp only [varsEvalOk, List.all_cons, Bool.and_eq_true] at hok
      obtain ⟨hok1, hok2⟩ := hok
      have hok2 : varsEvalOk rest ctx = true := hok2
      have ihr := ih (g + 1) ctx hall2 hok2 (by omega)
      cases n with
      | textNode content =>
          show seqRender (renderNode (g + 1) (.textNode content) ctx)
            (renderNodes (g + 1) rest) = _
          rw [show renderNode (g + 1) (Node.textNode content) ctx =
            (.ok content, ctx) from rfl]
          simp [seqRender, ihr, specRoundTrip]
      | varNode e esc =>
          obtain ⟨v, hv⟩ : ∃ v, ExpressionEvaluator.evaluate e ctx = .ok v := by
            cases hq : ExpressionEvaluator.evaluate e ctx with
            | ok v => exact ⟨v, rfl⟩
            | error er => simp [hq, isErrResult] at hok1
          show seqRender (renderNode (g + 1) (.varNode e esc) ctx)
            (renderNodes (g + 1) rest) = _
          rw [show renderNode (g + 1) (Node.varNode e esc) ctx =
            renderVariable e esc ctx from rfl]
          simp [renderVariable, hv, seqRender, ihr, specRoundTrip]
      | ifNode c b el eb => simp [isTextVar] at hn
      | forNode a b c d => simp [isTextVar] at hn
      | unlessNode a b => simp [isTextVar] at hn
      | switchNode a b c => simp [isTextVar] at hn
      | authNode a b c => simp [isTextVar] at hn
      | guestNode a b c => simp [isTextVar] at hn
      | includeNode a => simp [isTextVar] at hn
      | extendsNode a => simp [isTextVar] at hn
      | sectionNode a b => simp [isTextVar] at hn
      | yieldNode a => simp [isTextVar] at hn
      | componentNode a b => simp [isTextVar] at hn
      | slotNode a b => simp [isTextVar] at hn
      | verbatimNode a => simp [isTextVar] at hn
      | pythonNode a => simp [isTextVar] at hn
      | commentNode a => simp [isTextVar] at hn
      | cycleNode a => simp [isTextVar] at hn
      | firstofNode a => simp [isTextVar] at hn
      | urlNode a => simp [isTextVar] at hn
      | staticNode a => simp [isTextVar] at hn
      | csrfNode => simp [isTextVar] at hn
      | methodNode a => simp [isTextVar] at hn
      | styleNode a => simp [isTextVar] at hn
      | classNode a => simp [isTextVar] at hn
      | breakNode a => simp [isTextVar] at hn
      | continueNode a => simp [isTextVar] at hn

/-- C6 (witness): the round-trip theorem at a concrete mixed template —
the escaped interpolation is HTML-escaped, the raw one is not. -/
theorem C6_witness :
    ([Node.textNode "Hello ", Node.varNode "name" true, Node.textNode ", ",
      Node.varNode "raw" false, Node.textNode "!"].all isTextVar = true) ∧
    (varsEvalOk [Node.textNode "Hello ", Node.varNode "name" true, Node.textNode ", ",
      Node.varNode "raw" false, Node.textNode "!"]
      [("name", PyVal.str "<b>J</b>"), ("raw", PyVal.str "<i>x</i>")] = true) ∧
    renderNodes 6 [Node.textNode "Hello ", Node.varNode "name" true, Node.textNode ", ",
      Node.varNode "raw" false, Node.textNode "!"]
      [("name", PyVal.str "<b>J</b>"), ("raw", PyVal.str "<i>x</i>")] =
      (.ok (specRoundTrip
        [Node.textNode "Hello ", Node.varNode "name" true, Node.textNode ", ",
         Node.varNode "raw" false, Node.textNode "!"]
        [("name", PyVal.str "<b>J</b>"), ("raw", PyVal.str "<i>x</i>")]),
       [("name", PyVal.str "<b>J</b>"), ("raw", PyVal.str "<i>x</i>")]) :=
  ⟨rfl, rfl,
   C6_theorem 6 [Node.textNode "Hello ", Node.varNode "name" true, Node.textNode ", ",
      Node.varNode "raw" false, Node.textNode "!"]
     [("name", PyVal.str "<b>J</b>"), ("raw", PyVal.str "<i>x</i>")]
     rfl rfl (by decide)⟩

/-- C7 (counterexample): `s.split` over a string resolves to the raw
bound-method object even though `split` is neither a whitelisted safe
method nor a registered filter — under the documented precedence the
attribute would be undefined (`None`), as the spec-modelled evaluator
indeed answers. -/
theorem C7_counterexample :
    SafeEvaluator.evaluate "s.split" [("s", .str "a,b")] =
      .ok (.boundMethod (.str "a,b") "split") ∧
    isSafeMethod (.str "a,b") "split" = false ∧
    ("split" ∈ filterNames → False) ∧
    SafeEvaluator.evaluate "s.split" [("s", .str "a,b")] ≠ .ok .none ∧
    ExpressionEvaluator.evaluate "s.split" [("s", .str "a,b")] = .ok .none := by
  refine ⟨rfl, rfl, by decide, ?_, rfl⟩
  rw [show SafeEvaluator.evaluate "s.split" [("s", .str "a,b")] =
    .ok (.boundMethod (.str "a,b") "split") from rfl]
  exact fun h => by cases (Except.ok.inj h)

/-- C7 (amended): attribute access on a successfully evaluated owner
follows the cascade the code implements — `None` short-circuit, mapping
key, then a plain getattr whose found value is auto-invoked only when it
is a whitelisted bound method (and returned raw otherwise), with the
filter seam reached only when getattr fails, and undefined last. -/
theorem C7_theorem (ctx : Ctx) (valueE : PExpr) (attrName : String) (owner : PyVal)
    (hOwner : SafeEvaluator.evalNode valueE ctx = .ok owner)
    (hpub : pyStartsWith attrName "_" = false) :
    SafeEvaluator.evalNode (.attr valueE attrName) ctx =
      attrResolutionSpec owner attrName := by
  simp only [SafeEvaluator.evalNode, hOwner, hpub, attrResolutionSpec, bind, Except.bind,
    pure, Except.pure, mappingKeyLookup, isNone]
  cases owner <;>
    first
      | rfl
      | (simp only [Bool.false_eq_true, if_false, reduceCtorEq, reduceIte]
         cases hg : pyGetattr _ attrName <;>
           simp [hg, pure, Except.pure])

/-- C7 (witness): the amended cascade at the attribute `split` of a
constant string owner. -/
theorem C7_witness :
    (pyStartsWith "split" "_" = false) ∧
    SafeEvaluator.evalNode (.attr (.const (.str "a,b")) "split") [] =
      attrResolutionSpec (.str "a,b") "split" :=
  ⟨by decide, C7_theorem [] (.const (.str "a,b")) "split" (.str "a,b") rfl (by decide)⟩

/-- C8 (counterexample): a template with non-whitespace text before an
`@extends`, followed by a second `@extends`, parses without error into
a text node and two extends nodes — nothing is rejected. -/
theorem C8_counterexample :
    Except.bind (tokenize "hi @extends('a')@extends('b')") parseTokens =
      .ok [.textNode "hi ", .extendsNode "'a'", .extendsNode "'b'"] := rfl

/-- C8 (amended): the top-level parser accepts an `@extends` directive
token at any position and any number of times — prepending a text token
or an extends token to any successfully parsed stream merely prepends
the corresponding node. -/
theorem C8_theorem (fuel : Nat) (toks : List Tok) (ns : List Node)
    (s : String) (line col line2 col2 : Nat)
    (h : parseTop fuel toks = .ok ns) :
    parseTop (fuel + 1) (⟨.text, s, line, col⟩ :: toks) = .ok (.textNode s :: ns) ∧
    parseTop (fuel + 1) (⟨.directive, "@extends('base')", line2, col2⟩ :: toks) =
      .ok (.extendsNode "'base'" :: ns) := by
  constructor
  · show (parseTop fuel toks).map (Node.textNode s :: ·) = _
    rw [h]
    rfl
  · show (parseTop fuel toks).map (Node.extendsNode "'base'" :: ·) = _
    rw [h]
    rfl

/-- C8 (witness): the amended theorem at the empty token stream. -/
theorem C8_witness :
    (parseTop 1 [] = Except.ok []) ∧
    parseTop 2 [⟨.text, "hi", 1, 1⟩] = .ok [.textNode "hi"] ∧
    parseTop 2 [⟨.directive, "@extends('base')", 1, 1⟩] = .ok [.extendsNode "'base'"] :=
  ⟨rfl, (C8_theorem 1 [] [] "hi" 1 1 1 1 rfl).1, (C8_theorem 1 [] [] "hi" 1 1 1 1 rfl).2⟩

/-- C9 (counterexample): a failing interpolation renders the inline
comment unconditionally — `render_variable` consults no debug flag, so
the "empty output in production mode" half of the claim never
happens. -/
theorem C9_counterexample :
    renderOut "A\x7b\x7b missing \x7d\x7dB" [] =
      .ok "A<!-- Error rendering 'missing': Undefined variable 'missing' -->B" ∧
    renderOut "A\x7b\x7b missing \x7d\x7dB" [] ≠ .ok "AB" := by
  refine ⟨rfl, ?_⟩
  rw [show renderOut "A\x7b\x7b missing \x7d\x7dB" [] =
    .ok "A<!-- Error rendering 'missing': Undefined variable 'missing' -->B" from rfl]
  exact fun h => absurd (Except.ok.inj h) (by decide)

/-- C9 (amended): when the interpolation expression fails, the node
catches the exception at its boundary and renders the inline diagnostic
comment in both the escaped and raw forms, with no debug-flag
dependence, and a following node still renders. -/
theorem C9_theorem (expr : String) (ctx : Ctx) (e : PyErr) (esc : Bool)
    (h : ExpressionEvaluator.evaluate expr ctx = .error e) :
    renderVariable expr esc ctx =
      (.ok ("<!-- Error rendering '" ++ expr ++ "': " ++ e.message ++ " -->"), ctx) ∧
    ∀ (t : String), renderNodes 3 [.varNode expr esc, .textNode t] ctx =
      (.ok ("<!-- Error rendering '" ++ expr ++ "': " ++ e.message ++ " -->" ++ t), ctx) := by
  have hv : renderVariable expr esc ctx =
      (.ok ("<!-- Error rendering '" ++ expr ++ "': " ++ e.message ++ " -->"), ctx) := by
    simp [renderVariable, h]
  refine ⟨hv, fun t => ?_⟩
  show seqRender (renderNode 2 (.varNode expr esc) ctx) (renderNodes 2 [.textNode t]) = _
  rw [show renderNode 2 (Node.varNode expr esc) ctx = renderVariable expr esc ctx from rfl, hv]
  show (match renderNodes 2 [Node.textNode t] ctx with
        | (.error e2, c2) => ((.error e2 : Except PyErr String), c2)
        | (.ok s2, c2) => (.ok ("<!-- Error rendering '" ++ expr ++ "': " ++ e.message ++ " -->" ++ s2), c2)) = _
  rw [show renderNodes 2 [Node.textNode t] ctx = (.ok (t ++ ""), ctx) from rfl]
  simp

/-- C9 (witness): the amended theorem at the undefined name `missing`
against the empty context. -/
theorem C9_witness :
    renderVariable "missing" true [] =
      (.ok ("<!-- Error rendering '" ++ "missing" ++ "': " ++
        (PyErr.undefinedVariable "'missing'").message ++ " -->"), []) ∧
    renderNodes 3 [.varNode "missing" true, .textNode "B"] [] =
      (.ok ("<!-- Error rendering '" ++ "missing" ++ "': " ++
        (PyErr.undefinedVariable "'missing'").message ++ " -->" ++ "B"), []) :=
  by
  have e0 : ExpressionEvaluator.evaluate "missing" [] =
      .error (.undefinedVariable "'missing'") := rfl
  have h := C9_theorem _ _ _ true e0
  exact ⟨h.1, h.2 "B"⟩

/-- C10: for every template, context, fuel and cache state, a render
that raises leaves the cache exactly as it was, and a cache-miss render
that succeeds writes exactly one entry, keyed by the post-render
context, holding the complete output. -/
theorem C10_theorem (fuel : Nat) (template : String) (ctx : Ctx) (cache : Cache) :
    (isErrResult (renderTemplate fuel template ctx cache).1 = true →
      (renderTemplate fuel template ctx cache).2 = cache) ∧
    (∀ out ctx2,
      cacheGet cache template ctx = Option.none →
      (renderTemplate fuel template ctx cache).1 = .ok (out, ctx2) →
      (renderTemplate fuel template ctx cache).2 = cacheSet cache template ctx2 out) := by
  cases hc : cacheGet cache template ctx with
  | some s =>
      have hrt : renderTemplate fuel template ctx cache = (.ok (s, ctx), cache) := by
        simp [renderTemplate, hc]
      refine ⟨fun h => ?_, fun out ctx2 hn _ => ?_⟩
      · rw [hrt] at h
        simp [isErrResult] at h
      · simp at hn
  | none =>
    cases ht : tokenize template with
    | error e =>
        have hrt : renderTemplate fuel template ctx cache = (.error e, cache) := by
          simp [renderTemplate, hc, ht]
        refine ⟨fun _ => by rw [hrt], fun out ctx2 _ h => ?_⟩
        rw [hrt] at h
        simp at h
    | ok toks =>
      cases hp : parseTokens toks with
      | error e =>
          have hrt : renderTemplate fuel template ctx cache = (.error e, cache) := by
            simp [renderTemplate, hc, ht, hp]
          refine ⟨fun _ => by rw [hrt], fun out ctx2 _ h => ?_⟩
          rw [hrt] at h
          simp at h
      | ok ast =>
        cases hr : renderNodes fuel ast ctx with
        | mk res ctx3 =>
          cases res with
          | error e =>
              have hrt : renderTemplate fuel template ctx cache = (.error e, cache) := by
                simp [renderTemplate, hc, ht, hp, hr]
              refine ⟨fun _ => by rw [hrt], fun out ctx2 _ h => ?_⟩
              rw [hrt] at h
              simp at h
          | ok o =>
              have hrt : renderTemplate fuel template ctx cache =
                  (.ok (o, ctx3), cacheSet cache template ctx3 o) := by
                simp [renderTemplate, hc, ht, hp, hr]
              refine ⟨fun h => ?_, fun out ctx2 _ h => ?_⟩
              · rw [hrt] at h
                simp [isErrResult] at h
              · rw [hrt] at h ⊢
                injection (Except.ok.inj h) with h1 h2
                subst h1
                subst h2
                rfl

/-- C10 (witness): a raising render (a top-level `@break`) leaves the
fresh cache empty, and a succeeding plain-text render writes its
entry. -/
theorem C10_witness :
    (renderTemplate 64 "@break" [] emptyCache).2 = emptyCache ∧
    (renderTemplate 64 "hi" [] emptyCache).2 = cacheSet emptyCache "hi" [] "hi" :=
  ⟨(C10_theorem 64 "@break" [] emptyCache).1 rfl,
   (C10_theorem 64 "hi" [] emptyCache).2 "hi" [] rfl rfl⟩

end PyBlade
